import Mathlib

/-!
Verification development for the MMET predictor core (a JavaScript single-page
application).  The JavaScript sources are shallowly embedded: JS numbers are
modelled as exact rationals (ℚ) wherever the code only performs field
arithmetic, and as real numbers (ℝ) where the score mapper applies a gamma
power curve; fallible operations return Option.  Each definition mirrors one
function of the source tree (file and function named in its doc comment).
-/

/-! ## Generic JavaScript semantics helpers -/

/-- Math.max(0, Math.min(1, x)) — the clamp01 helper of src/utils/mmetBaselineFormulas.js. -/
def clamp01 (x : ℚ) : ℚ := max 0 (min 1 x)

/-- JS Math.round: round half toward positive infinity. -/
def jsRound (x : ℚ) : ℤ := Int.floor (x + 1/2)

/-- ASCII lower-casing plus the Greek capitals that occur in COA text
(String.prototype.toLowerCase restricted to the characters this program meets). -/
def jsToLower (c : Char) : Char :=
  if ('A' ≤ c ∧ c ≤ 'Z') then Char.ofNat (c.toNat + 32)
  else if c = 'Δ' then 'δ'
  else if c = 'Α' then 'α'
  else if c = 'Β' then 'β'
  else c

/-- Lower-case every character of a string. -/
def jsToLowerStr (s : String) : String := String.mk (s.toList.map jsToLower)

/-- JS \s (whitespace) on the character set this program meets:
ASCII whitespace and NBSP. -/
def jsWhite (c : Char) : Bool :=
  c == ' ' || c == '\t' || c == '\n' || c == '\r' || c.toNat == 11 || c.toNat == 12 ||
  c.toNat == 160

/-- Drop adjacent duplicate spaces (helper for whitespace collapsing). -/
def squeezeSpaces : List Char → List Char
  | [] => []
  | [c] => [c]
  | a :: b :: t =>
    if a == ' ' && b == ' ' then squeezeSpaces (b :: t) else a :: squeezeSpaces (b :: t)

/-- The regex replacement \s+ → a single space. -/
def wsCollapse (l : List Char) : List Char :=
  squeezeSpaces (l.map (fun c => if jsWhite c then ' ' else c))

/-- String.prototype.trim on a character list. -/
def trimChars (l : List Char) : List Char :=
  ((l.dropWhile jsWhite).reverse.dropWhile jsWhite).reverse

/-- String.prototype.trim. -/
def jsTrim (s : String) : String := String.mk (trimChars s.toList)

/-- Substring test (String.prototype.includes). -/
def listContainsSub : List Char → List Char → Bool
  | [], pat => pat.isEmpty
  | c :: t, pat => pat.isPrefixOf (c :: t) || listContainsSub t pat

/-- String.prototype.includes. -/
def strIncludes (s pat : String) : Bool := listContainsSub s.toList pat.toList

/-- JS truthiness chain x || d for a possibly-absent number x:
null/undefined and 0 are falsy and fall through to the default. -/
def jsOrQ (a : Option ℚ) (dflt : ℚ) : ℚ :=
  match a with
  | some v => if v = 0 then dflt else v
  | none => dflt

/-- Map get on an insertion-ordered association list modelling a JS Map. -/
def mapGet (m : List (String × ℚ)) (k : String) : Option ℚ :=
  (m.find? (fun p => p.1 == k)).map (fun p => p.2)

/-- Map set on an insertion-ordered association list modelling a JS Map:
update in place if the key exists, else append. -/
def mapSet : List (String × ℚ) → String → ℚ → List (String × ℚ)
  | [], k, v => [(k, v)]
  | (k0, v0) :: t, k, v =>
    if k0 == k then (k0, v) :: t else (k0, v0) :: mapSet t k v

/-! ## Data model shared by the terpene helpers -/

/-- One raw terpene entry as the JS code sees it: both fields may be absent. -/
structure TerpRec where
  name : Option String
  pct : Option ℚ
deriving DecidableEq, Repr

/-! ## src/utils/mmetBaselineFormulas.js — the baseline effect engine -/

namespace MmetBaselineFormulas

/-- THC_WEIGHT of mmetBaselineFormulas.js. -/
def THC_WEIGHT : ℚ := 0.65

/-- TERP_WEIGHT of mmetBaselineFormulas.js. -/
def TERP_WEIGHT : ℚ := 0.25

/-- FORM_WEIGHT of mmetBaselineFormulas.js. -/
def FORM_WEIGHT : ℚ := 0.10

/-- One row of the THC_BANDS table; max = none encodes Infinity. -/
structure ThcBand where
  key : String
  bmin : ℚ
  bmax : Option ℚ
  label : String
  anxietyRisk : ℚ
  potency : ℚ
deriving DecidableEq, Repr

/-- The micro band (THC_BANDS[0]). -/
def bandMicro : ThcBand := ⟨"micro", 0, some 10, "Micro", 0.15, 0.20⟩

/-- THC_BANDS of mmetBaselineFormulas.js. -/
def THC_BANDS : List ThcBand :=
  [bandMicro,
   ⟨"low", 10, some 15, "Low", 0.25, 0.35⟩,
   ⟨"medium", 15, some 20, "Medium", 0.40, 0.50⟩,
   ⟨"high", 20, some 25, "High", 0.55, 0.65⟩,
   ⟨"very_high", 25, some 35, "Very High", 0.70, 0.80⟩,
   ⟨"extreme", 35, none, "Extreme", 0.85, 0.95⟩]

/-- One row of FORM_MODIFIERS. -/
structure FormProfile where
  key : String
  intensityMod : ℚ
  durationMod : ℚ
  anxietyRiskAdd : ℚ
  terpeneRetention : ℚ
  onsetMinutes : ℚ
  baseDurationHours : ℚ
deriving DecidableEq, Repr

/-- FORM_MODIFIERS.edible. -/
def formEdible : FormProfile := ⟨"edible", 1.25, 3.2, 0.18, 0.25, 60, 6⟩

/-- FORM_MODIFIERS.vape. -/
def formVape : FormProfile := ⟨"vape", 1.15, 1.25, 0.12, 0.55, 4, 2⟩

/-- FORM_MODIFIERS.concentrate. -/
def formConcentrate : FormProfile := ⟨"concentrate", 1.35, 1.35, 0.16, 0.45, 5, 2⟩

/-- FORM_MODIFIERS.live_resin. -/
def formLiveResin : FormProfile := ⟨"live_resin", 1.25, 1.35, 0.10, 0.80, 5, 2⟩

/-- FORM_MODIFIERS.flower. -/
def formFlower : FormProfile := ⟨"flower", 1.0, 1.0, 0.0, 0.95, 8, 2⟩

/-- FORM_MODIFIERS.topical. -/
def formTopical : FormProfile := ⟨"topical", 0.0, 0.0, 0.0, 1.0, 0, 0⟩

/-- FORM_MODIFIERS[k] || FORM_MODIFIERS.flower. -/
def formMod (k : String) : FormProfile :=
  if k = ("edible") then formEdible
  else if k = ("vape") then formVape
  else if k = ("concentrate") then formConcentrate
  else if k = ("live_resin") then formLiveResin
  else if k = ("flower") then formFlower
  else if k = ("topical") then formTopical
  else formFlower

/-- normalizeFormType of mmetBaselineFormulas.js: map a raw form string
to one of the six canonical form keys. -/
def normalizeFormType (raw : Option String) : String :=
  let s := jsToLowerStr (raw.getD (""))
  if s = ("") then ("flower")
  else if strIncludes s ("topical") || strIncludes s ("salve") || strIncludes s ("cream") ||
      strIncludes s ("lotion") then ("topical")
  else if strIncludes s ("edible") || strIncludes s ("gummy") || strIncludes s ("cookie") ||
      strIncludes s ("brownie") || strIncludes s ("chocolate") || strIncludes s ("capsule") ||
      strIncludes s ("tincture") || strIncludes s ("drink") || strIncludes s ("beverage") then
    ("edible")
  else if strIncludes s ("vape") || strIncludes s ("cart") || strIncludes s ("cartridge") ||
      strIncludes s ("distillate") || strIncludes s ("pod") then ("vape")
  else if strIncludes s ("live") &&
      (strIncludes s ("resin") || strIncludes s ("badder") || strIncludes s ("sugar") ||
       strIncludes s ("sauce") || strIncludes s ("diamonds")) then ("live_resin")
  else if strIncludes s ("live resin") then ("live_resin")
  else if strIncludes s ("concentrate") || strIncludes s ("wax") || strIncludes s ("shatter") ||
      strIncludes s ("rosin") || strIncludes s ("crumble") || strIncludes s ("badder") ||
      strIncludes s ("sugar") || strIncludes s ("sauce") || strIncludes s ("diamonds") then
    ("concentrate")
  else ("flower")

/-- getTHCBand of mmetBaselineFormulas.js; the argument is the already
coerced THC percentage. -/
def getTHCBand (t : ℚ) : ThcBand :=
  (THC_BANDS.find? (fun b =>
    decide (b.bmin ≤ t) &&
      match b.bmax with
      | none => true
      | some mx => decide (t < mx))).getD bandMicro

/-- The engine-local normalizeTerpName of mmetBaselineFormulas.js (NOT the
canonicalizer of terpenes.js): lower-case, spell out Greek β/α, collapse
whitespace, trim.  Dashes are kept. -/
def normalizeTerpName (name : Option String) : String :=
  let lowered := (name.getD ("")).toList.map jsToLower
  let expanded := (lowered.map (fun c =>
    if c = 'β' then ("beta").toList else if c = 'α' then ("alpha").toList else [c])).flatten
  String.mk (trimChars (wsCollapse expanded))

/-- buildTerpMap of mmetBaselineFormulas.js: accumulate percentages per
locally-normalized name, skipping empty names. -/
def buildTerpMap (terpenes : List (Option TerpRec)) : List (String × ℚ) :=
  terpenes.foldl (fun m t =>
    let n := normalizeTerpName (t.bind (fun r => r.name))
    let pct := (t.bind (fun r => r.pct)).getD 0
    if n = ("") then m else mapSet m n ((mapGet m n).getD 0 + pct)) []

/-- The five felt-effect dimensions, each intended to live in [0,1]. -/
structure EffectVec where
  head : ℚ
  clarity : ℚ
  sedation : ℚ
  couch : ℚ
  pain : ℚ
deriving DecidableEq, Repr

/-- The all-zero effect vector. -/
def zeroVec : EffectVec := ⟨0, 0, 0, 0, 0⟩

/-- thcBaseVector of mmetBaselineFormulas.js. -/
def thcBaseVector (potency : ℚ) : EffectVec :=
  let p := clamp01 potency
  ⟨clamp01 (0.18 + 0.50 * p),
   clamp01 (0.86 - 0.46 * p),
   clamp01 (0.08 + 0.55 * p),
   clamp01 (0.05 + 0.45 * p),
   clamp01 (0.18 + 0.40 * p)⟩

/-- The get(...keys) helper of applyTerpModifiers: first key the map has. -/
def tget (m : List (String × ℚ)) : List String → ℚ
  | [] => 0
  | k :: rest =>
    match mapGet m k with
    | some v => v
    | none => tget m rest

/-- The caryophyllene block of applyTerpModifiers. -/
def stepCaryo (caryo ts : ℚ) (vec : EffectVec) : EffectVec :=
  if 0 < caryo then
    { vec with
      pain := clamp01 (vec.pain + 0.10 * ts + 0.06 * clamp01 (caryo / 3)),
      sedation := clamp01 (vec.sedation + 0.04 * ts),
      couch := clamp01 (vec.couch + 0.03 * ts) }
  else vec

/-- The linalool block of applyTerpModifiers. -/
def stepLinalool (linalool ts : ℚ) (vec : EffectVec) : EffectVec :=
  if 0 < linalool then
    { vec with
      sedation := clamp01 (vec.sedation + 0.10 * ts + 0.06 * clamp01 (linalool / 1.5)),
      clarity := clamp01 (vec.clarity - 0.03 * ts),
      couch := clamp01 (vec.couch + 0.04 * ts) }
  else vec

/-- The limonene block of applyTerpModifiers. -/
def stepLimonene (limonene ts : ℚ) (vec : EffectVec) : EffectVec :=
  if 0 < limonene then
    { vec with
      head := clamp01 (vec.head + 0.07 * ts + 0.05 * clamp01 (limonene / 1.2)),
      clarity := clamp01 (vec.clarity + 0.07 * ts),
      sedation := clamp01 (vec.sedation - 0.03 * ts) }
  else vec

/-- The myrcene block of applyTerpModifiers. -/
def stepMyrcene (myrcene ts : ℚ) (vec : EffectVec) : EffectVec :=
  if 0 < myrcene then
    { vec with
      sedation := clamp01 (vec.sedation + 0.08 * ts + 0.04 * clamp01 (myrcene / 1.5)),
      couch := clamp01 (vec.couch + 0.10 * ts + 0.05 * clamp01 (myrcene / 1.5)),
      clarity := clamp01 (vec.clarity - 0.05 * ts) }
  else vec

/-- The humulene block of applyTerpModifiers. -/
def stepHumulene (humulene ts : ℚ) (vec : EffectVec) : EffectVec :=
  if 0 < humulene then
    { vec with
      pain := clamp01 (vec.pain + 0.05 * ts),
      sedation := clamp01 (vec.sedation + 0.02 * ts) }
  else vec

/-- The bisabolol block of applyTerpModifiers. -/
def stepBisabolol (bisabolol ts : ℚ) (vec : EffectVec) : EffectVec :=
  if 0 < bisabolol then
    { vec with
      pain := clamp01 (vec.pain + 0.04 * ts),
      sedation := clamp01 (vec.sedation + 0.03 * ts) }
  else vec

/-- The terpinolene block of applyTerpModifiers. -/
def stepTerpinolene (terpinolene ts : ℚ) (vec : EffectVec) : EffectVec :=
  if 0 < terpinolene then
    { vec with
      head := clamp01 (vec.head + 0.06 * ts),
      clarity := clamp01 (vec.clarity - 0.03 * ts) }
  else vec

/-- The pinene block of applyTerpModifiers. -/
def stepPinene (pinene ts : ℚ) (vec : EffectVec) : EffectVec :=
  if 0 < pinene then
    { vec with
      clarity := clamp01 (vec.clarity + 0.07 * ts),
      sedation := clamp01 (vec.sedation - 0.03 * ts) }
  else vec

/-- The ocimene block of applyTerpModifiers. -/
def stepOcimene (ocimene ts : ℚ) (vec : EffectVec) : EffectVec :=
  if 0 < ocimene then { vec with head := clamp01 (vec.head + 0.03 * ts) } else vec

/-- applyTerpModifiers of mmetBaselineFormulas.js: nine sequential
conditional blocks (one per named terpene, in source order), each update
clamped per dimension; terpene effect strength is scaled by
clamp01(totalTerpenes/10). -/
def applyTerpModifiers (vec : EffectVec) (m : List (String × ℚ)) (totalTerpenesPct : ℚ) :
    EffectVec :=
  let caryo := tget m [("beta-caryophyllene"), ("beta caryophyllene"), ("caryophyllene")]
  let linalool := tget m [("linalool")]
  let limonene := tget m [("d-limonene"), ("limonene")]
  let myrcene := tget m [("myrcene"), ("beta-myrcene"), ("β-myrcene")]
  let humulene := tget m [("alpha-humulene"), ("humulene")]
  let bisabolol := tget m [("alpha-bisabolol"), ("bisabolol")]
  let terpinolene := tget m [("terpinolene")]
  let pinene := tget m [("alpha-pinene"), ("beta-pinene"), ("pinene")]
  let ocimene := tget m [("ocimene"), ("ocimenes")]
  let ts := clamp01 (totalTerpenesPct / 10)
  stepOcimene ocimene ts (stepPinene pinene ts (stepTerpinolene terpinolene ts
    (stepBisabolol bisabolol ts (stepHumulene humulene ts (stepMyrcene myrcene ts
      (stepLimonene limonene ts (stepLinalool linalool ts (stepCaryo caryo ts vec))))))))

/-- formDirectVector of mmetBaselineFormulas.js. -/
def formDirectVector (formKey : String) : EffectVec :=
  let f := formMod formKey
  if f.intensityMod = 0 then zeroVec
  else if formKey = ("edible") then ⟨0.08, 0.06, 0.14, 0.12, 0.10⟩
  else if formKey = ("vape") then ⟨0.12, 0.10, 0.08, 0.08, 0.08⟩
  else if formKey = ("live_resin") then ⟨0.10, 0.10, 0.10, 0.10, 0.10⟩
  else if formKey = ("concentrate") then ⟨0.10, 0.06, 0.14, 0.12, 0.10⟩
  else ⟨0.08, 0.12, 0.08, 0.08, 0.10⟩

/-- mixWeighted of mmetBaselineFormulas.js. -/
def mixWeighted (a b : EffectVec) (wA wB : ℚ) : EffectVec :=
  ⟨clamp01 (a.head * wA + b.head * wB),
   clamp01 (a.clarity * wA + b.clarity * wB),
   clamp01 (a.sedation * wA + b.sedation * wB),
   clamp01 (a.couch * wA + b.couch * wB),
   clamp01 (a.pain * wA + b.pain * wB)⟩

/-- applyIntensityShaping of mmetBaselineFormulas.js: additive shaping in
max(0, intensity − 1), or the vector unchanged when that is 0. -/
def applyIntensityShaping (vec : EffectVec) (intensity : ℚ) : EffectVec :=
  let i := max 0 (intensity - 1)
  if i ≤ 0 then vec
  else
    ⟨clamp01 (vec.head + 0.05 * i),
     clamp01 (vec.clarity - 0.10 * i),
     clamp01 (vec.sedation + 0.18 * i),
     clamp01 (vec.couch + 0.14 * i),
     clamp01 (vec.pain + 0.10 * i)⟩

/-- The argument record of calculateBaseline; every field may be absent,
mirroring the defensive num()/Array.isArray coercions of the source. -/
structure BaselineInput where
  totalTHC : Option ℚ
  totalTerpenes : Option ℚ
  form : Option String
  terpenes : Option (List (Option TerpRec))

/-- num(input?.totalTHC, 0). -/
def totalTHCOf (inp : BaselineInput) : ℚ := inp.totalTHC.getD 0

/-- num(input?.totalTerpenes, 0). -/
def totalTerpenesOf (inp : BaselineInput) : ℚ := inp.totalTerpenes.getD 0

/-- normalizeFormType(input?.form). -/
def formKeyOf (inp : BaselineInput) : String := normalizeFormType inp.form

/-- getTHCBand(totalTHC). -/
def thcBandOf (inp : BaselineInput) : ThcBand := getTHCBand (totalTHCOf inp)

/-- FORM_MODIFIERS[formKey] || FORM_MODIFIERS.flower. -/
def formOf (inp : BaselineInput) : FormProfile := formMod (formKeyOf inp)

/-- The local thcVec of calculateBaseline. -/
def thcVecOf (inp : BaselineInput) : EffectVec := thcBaseVector (thcBandOf inp).potency

/-- The local terpMap of calculateBaseline. -/
def terpMapOf (inp : BaselineInput) : List (String × ℚ) := buildTerpMap (inp.terpenes.getD [])

/-- The local terpVec of calculateBaseline. -/
def terpVecOf (inp : BaselineInput) : EffectVec :=
  applyTerpModifiers (thcVecOf inp) (terpMapOf inp) (totalTerpenesOf inp)

/-- The local thcTerpBlend of calculateBaseline:
mixWeighted(thcVec, terpVec, 1 − TERP_WEIGHT, TERP_WEIGHT). -/
def thcTerpBlendOf (inp : BaselineInput) : EffectVec :=
  mixWeighted (thcVecOf inp) (terpVecOf inp) (1 - TERP_WEIGHT) TERP_WEIGHT

/-- The local formVec of calculateBaseline. -/
def formVecOf (inp : BaselineInput) : EffectVec := formDirectVector (formKeyOf inp)

/-- The local baselineVec of calculateBaseline:
mixWeighted(thcTerpBlend, formVec, 1 − FORM_WEIGHT, FORM_WEIGHT). -/
def baselineVecOf (inp : BaselineInput) : EffectVec :=
  mixWeighted (thcTerpBlendOf inp) (formVecOf inp) (1 - FORM_WEIGHT) FORM_WEIGHT

/-- The local intensity of calculateBaseline. -/
def intensityOf (inp : BaselineInput) : ℚ := (formOf inp).intensityMod

/-- The local scaled of calculateBaseline: zero for intensity 0 (topical),
otherwise intensity shaping of baselineVec. -/
def scaledOf (inp : BaselineInput) : EffectVec :=
  if intensityOf inp = 0 then zeroVec
  else applyIntensityShaping (baselineVecOf inp) (intensityOf inp)

/-- The local limonenePct of calculateBaseline (JS || chain: a value of 0 is
falsy and falls through). -/
def limonenePctOf (inp : BaselineInput) : ℚ :=
  jsOrQ (mapGet (terpMapOf inp) ("limonene")) (jsOrQ (mapGet (terpMapOf inp) ("d-limonene")) 0)

/-- The local terpinolenePct of calculateBaseline. -/
def terpinolenePctOf (inp : BaselineInput) : ℚ :=
  jsOrQ (mapGet (terpMapOf inp) ("terpinolene")) 0

/-- The local myrcenePct of calculateBaseline. -/
def myrcenePctOf (inp : BaselineInput) : ℚ :=
  jsOrQ (mapGet (terpMapOf inp) ("myrcene")) (jsOrQ (mapGet (terpMapOf inp) ("beta-myrcene")) 0)

/-- The anxietyRisk pipeline of calculateBaseline: band baseline + form add,
then the limonene, terpinolene and retention rules in source order, each
re-clamped. -/
def anxietyRiskOf (inp : BaselineInput) : ℚ :=
  let a0 := clamp01 ((thcBandOf inp).anxietyRisk + (formOf inp).anxietyRiskAdd)
  let a1 := if 0.3 < limonenePctOf inp then clamp01 (a0 - 0.08) else a0
  let a2 := if 0.3 < terpinolenePctOf inp then clamp01 (a1 + 0.08) else a1
  if (formOf inp).terpeneRetention < 0.5 then clamp01 (a2 * 1.15) else a2

/-- The final couch value of calculateBaseline: the myrcene > 0.5 couch-lock
boost applied to the scaled vector. -/
def couchOf (inp : BaselineInput) : ℚ :=
  if 0.5 < myrcenePctOf inp then clamp01 ((scaledOf inp).couch + 0.12) else (scaledOf inp).couch

/-- The result record of calculateBaseline, _meta fields flattened. -/
structure BaselineResult where
  head : ℚ
  clarity : ℚ
  sedation : ℚ
  couch : ℚ
  pain : ℚ
  anxietyRisk : ℚ
  metaThcPct : ℚ
  metaThcBand : String
  metaForm : String
  metaIntensityMod : ℚ
  metaDurationHours : ℚ
  metaOnsetMinutes : ℚ
  metaTerpeneRetention : ℚ
  metaTotalTerpenesPct : ℚ
deriving DecidableEq, Repr

/-- calculateBaseline of mmetBaselineFormulas.js. -/
def calculateBaseline (inp : BaselineInput) : BaselineResult :=
  { head := (scaledOf inp).head
    clarity := (scaledOf inp).clarity
    sedation := (scaledOf inp).sedation
    couch := couchOf inp
    pain := (scaledOf inp).pain
    anxietyRisk := anxietyRiskOf inp
    metaThcPct := totalTHCOf inp
    metaThcBand := (thcBandOf inp).label
    metaForm := (formOf inp).key
    metaIntensityMod := intensityOf inp
    metaDurationHours := (formOf inp).baseDurationHours * (formOf inp).durationMod
    metaOnsetMinutes := (formOf inp).onsetMinutes
    metaTerpeneRetention := (formOf inp).terpeneRetention
    metaTotalTerpenesPct := totalTerpenesOf inp }

end MmetBaselineFormulas

/-! ## src/utils/terpenes.js — the terpene name canonicalizer -/

namespace Terpenes

/-- Strip Unicode combining marks U+0300..U+036F (the replace step right
after String.prototype.normalize("NFKD"); NFKD itself is the identity on the
character repertoire this program meets — ASCII plus Greek α/β, none of
which has a compatibility decomposition). -/
def stripCombining (l : List Char) : List Char :=
  l.filter (fun c => !(768 ≤ c.toNat && c.toNat ≤ 879))

mutual

/-- Regex replacement of each maximal run of p-characters by one space. -/
def runReplace (p : Char → Bool) : List Char → List Char
  | [] => []
  | c :: t => if p c then ' ' :: runSkip p t else c :: runReplace p t

/-- Skip the rest of a run of p-characters. -/
def runSkip (p : Char → Bool) : List Char → List Char
  | [] => []
  | c :: t => if p c then runSkip p t else runReplace p t

end

/-- The regex replacement ^(alpha|beta|d)\s+ → "" of terpenes.js; the string
is whitespace-collapsed and trimmed at this point, so the \s+ is a single
space. -/
def stripLeadPre1 (l : List Char) : List Char :=
  if (("alpha ").toList).isPrefixOf l then l.drop 6
  else if (("beta ").toList).isPrefixOf l then l.drop 5
  else if (("d ").toList).isPrefixOf l then l.drop 2
  else l

/-- The regex replacement ^(a|b)\s+ → "" of terpenes.js. -/
def stripLeadPre2 (l : List Char) : List Char :=
  if (("a ").toList).isPrefixOf l then l.drop 2
  else if (("b ").toList).isPrefixOf l then l.drop 2
  else l

/-- The canonical terpene vocabulary of terpenes.js. -/
def known : List String :=
  [("caryophyllene"), ("humulene"), ("limonene"), ("myrcene"), ("pinene"),
   ("bisabolol"), ("ocimene"), ("linalool"), ("terpinolene"), ("guaiol")]

/-- normalizeTerpName of src/utils/terpenes.js on an actual string
(the rawName != null path). -/
def normCore (raw : String) : String :=
  let s1 := (jsTrim raw).toList.map jsToLower
  if s1.isEmpty then ("")
  else
    let s2 := stripCombining s1
    let s3 := (s2.map (fun c =>
      if c = 'β' then ("beta").toList else if c = 'α' then ("alpha").toList else [c])).flatten
    let s4 := runReplace (fun c => c == '_' || c == '/') s3
    let s5 := s4.map (fun c => if c = '-' then ' ' else c)
    let s6 := trimChars (wsCollapse s5)
    let s7 := stripLeadPre1 s6
    let s8 := stripLeadPre2 s7
    let s9 := stripLeadPre1 s8
    let s10 := s9.map (fun c => if (('a' ≤ c ∧ c ≤ 'z') ∨ jsWhite c) then c else ' ')
    let s11 := String.mk (trimChars (wsCollapse s10))
    let s12 := if s11 = ("ocimenes") then ("ocimene") else s11
    let s13 := if s12 = ("terpineol") then ("terpinolene") else s12
    let s14 :=
      if s13 = ("alpha pinene") ∨ s13 = ("beta pinene") ∨ s13 = ("a pinene") ∨
          s13 = ("b pinene") then ("pinene")
      else s13
    if known.contains s14 then s14
    else
      let lastTok := ((s14.splitOn (" ")).filter (fun t => t ≠ (""))).getLast?.getD ("")
      if known.contains lastTok then lastTok
      else if lastTok = ("") then s14 else lastTok

/-- normalizeTerpName of src/utils/terpenes.js (returns "" for a missing
name). -/
def normalizeTerpName (rawName : Option String) : String :=
  match rawName with
  | none => ("")
  | some s => normCore s

/-- roundPct of src/utils/terpenes.js: Math.round(x·1000)/1000. -/
def roundPct (x : ℚ) : ℚ := (jsRound (x * 1000) : ℚ) / 1000

/-- The loop body of getTopTerpenes building the totals Map: skip null
entries, empty normalized names and non-positive or non-finite
percentages, otherwise add the percentage to the name's running total. -/
def terpStep (m : List (String × ℚ)) (t : Option TerpRec) : List (String × ℚ) :=
  match t with
  | none => m
  | some r =>
    let name := normalizeTerpName r.name
    if name = ("") then m
    else
      match r.pct with
      | none => m
      | some p => if p ≤ 0 then m else mapSet m name ((mapGet m name).getD 0 + p)

/-- The contribution of one raw entry to the merged total of canonical key
k: its percentage when the entry is kept by the loop and its name
normalizes to k, nothing otherwise. -/
def terpContrib (k : String) (t : Option TerpRec) : Option ℚ :=
  match t with
  | none => none
  | some r =>
    if normalizeTerpName r.name = k ∧ ¬ normalizeTerpName r.name = ("") then
      match r.pct with
      | some p => if 0 < p then some p else none
      | none => none
    else none

/-- The totals Map built by the loop of getTopTerpenes: merge duplicate
normalized names by summation. -/
def terpTotals (l : List (Option TerpRec)) : List (String × ℚ) := l.foldl terpStep []

/-- Stable insertion (descending by pct) used to model the JS stable
Array.prototype.sort with comparator (a, b) => b.pct − a.pct. -/
def insDesc (x : String × ℚ) : List (String × ℚ) → List (String × ℚ)
  | [] => [x]
  | y :: ys => if x.2 < y.2 then y :: insDesc x ys else x :: y :: ys

/-- Stable sort, descending by pct. -/
def sortPctDesc (l : List (String × ℚ)) : List (String × ℚ) := l.foldr insDesc []

/-- getTopTerpenes of src/utils/terpenes.js: merge duplicates (summing),
round, sort descending by pct, keep the first limit entries. -/
def getTopTerpenes (terpArray : List (Option TerpRec)) (limit : Nat) : List (String × ℚ) :=
  if terpArray.isEmpty then []
  else (sortPctDesc ((terpTotals terpArray).map (fun p => (p.1, roundPct p.2)))).take limit

/-- getTop6Terpenes of src/utils/terpenes.js. -/
def getTop6Terpenes (terpArray : List (Option TerpRec)) : List (String × ℚ) :=
  getTopTerpenes terpArray 6

end Terpenes

/-! ## src/utils/scoring.js — score mapper and personalization calibrator

The baseline engine is exact rational arithmetic, but toScore5Scaled applies
a gamma power curve (Math.pow with a non-integer exponent), so from that
point on values are modelled in ℝ with Real.rpow. -/

namespace Scoring

open MmetBaselineFormulas

/-- The seven user-facing scoring dimensions (DIMS of scoring.js, in source
order). -/
inductive Dim where
  | pain | head | couch | clarity | duration | functionality | anxiety
deriving DecidableEq, Repr

/-- DIMS of scoring.js. -/
def DIMS : List Dim :=
  [Dim.pain, Dim.head, Dim.couch, Dim.clarity, Dim.duration, Dim.functionality, Dim.anxiety]

/-- A 0..5 score record, one value per dimension. -/
structure Scores where
  pain : ℝ
  head : ℝ
  couch : ℝ
  clarity : ℝ
  duration : ℝ
  functionality : ℝ
  anxiety : ℝ

/-- Field access by dimension. -/
def getDim (s : Scores) : Dim → ℝ
  | Dim.pain => s.pain
  | Dim.head => s.head
  | Dim.couch => s.couch
  | Dim.clarity => s.clarity
  | Dim.duration => s.duration
  | Dim.functionality => s.functionality
  | Dim.anxiety => s.anxiety

/-- JS Math.round over ℝ (round half toward positive infinity). -/
noncomputable def jsRoundR (x : ℝ) : ℤ := Int.floor (x + 1/2)

/-- The toHalf helper of scoring.js: Math.round(v·2)/2, over ℝ. -/
noncomputable def toHalfR (v : ℝ) : ℝ := ((jsRoundR (v * 2) : ℤ) : ℝ) / 2

/-- The toHalf helper of scoring.js restricted to the exact rational
duration path. -/
def toHalfQ (v : ℚ) : ℚ := (jsRound (v * 2) : ℚ) / 2

/-- Math.max(0, Math.min(5, v)) over ℝ. -/
noncomputable def clamp05R (v : ℝ) : ℝ := max 0 (min 5 v)

/-- toScore5Scaled of scoring.js: lo/hi rescale then gamma curve then
round-to-half; the rescale is exact rational, the curve is Real.rpow. -/
noncomputable def toScore5Scaled (x01 lo hi gamma : ℚ) : ℝ :=
  let x := clamp01 x01
  let denom := max (1/1000000000) (hi - lo)
  let t := clamp01 ((x - lo) / denom)
  toHalfR (5 * ((t : ℝ) ^ ((gamma : ℚ) : ℝ)))

/-- A product as calculateBaselineScores reads it: every field may be
absent and is defensively coerced. -/
structure ScoringProduct where
  id : String
  metricsTotalTHC : Option ℚ
  metricsTotalTerpenes : Option ℚ
  form : Option String
  terpenes : Option (List (Option TerpRec))

/-- The argument calculateBaselineScores passes to the advanced baseline
engine. -/
def inputOf (p : ScoringProduct) : BaselineInput :=
  { totalTHC := some (p.metricsTotalTHC.getD 0)
    totalTerpenes := some (p.metricsTotalTerpenes.getD 0)
    form := some (p.form.getD (""))
    terpenes := some (p.terpenes.getD []) }

/-- The local adv of calculateBaselineScores. -/
def advOf (p : ScoringProduct) : BaselineResult := calculateBaseline (inputOf p)

/-- The local anxietyRaw of calculateBaselineScores. -/
def anxietyRawOf (p : ScoringProduct) : ℚ := clamp01 (advOf p).anxietyRisk

/-- The local anxiety01 of calculateBaselineScores: the anxietyRisk signal
rescaled by (x − 0.22)/0.78 and re-clamped, so that low risks map to 0. -/
def anxiety01Of (p : ScoringProduct) : ℚ := clamp01 ((anxietyRawOf p - 0.22) / 0.78)

/-- calculateBaselineScores of scoring.js (the current revision with
per-dimension lo/hi/gamma scaling). -/
noncomputable def calculateBaselineScores (p : ScoringProduct) : Scores :=
  let adv := advOf p
  let headRaw := clamp01 adv.head
  let clarityRaw := clamp01 adv.clarity
  let sedationRaw := clamp01 adv.sedation
  let couchRaw := clamp01 adv.couch
  let painRaw := clamp01 adv.pain
  let head01 := clamp01 (0.78 * headRaw + 0.22 * clarityRaw - 0.28 * sedationRaw -
    0.12 * couchRaw)
  let clarity01 := clamp01 (clarityRaw * (1 - 0.18 * sedationRaw))
  let couch01 := clamp01 (couchRaw + 0.18 * sedationRaw)
  let pain01 := clamp01 painRaw
  let durHours := adv.metaDurationHours
  let duration := toHalfQ (max 0 (min 5 (durHours / 18 * 5)))
  let functionality01 := clamp01 (0.60 * clarity01 +
    0.40 * (1 - (0.62 * sedationRaw + 0.38 * couch01)))
  { pain := clamp05R (toScore5Scaled pain01 0.10 0.80 1.10)
    head := clamp05R (toScore5Scaled head01 0.15 0.85 1.35)
    couch := clamp05R (toScore5Scaled couch01 0.10 0.88 1.25)
    clarity := clamp05R (toScore5Scaled clarity01 0.12 0.88 1.05)
    duration := clamp05R ((duration : ℝ))
    functionality := clamp05R (toScore5Scaled functionality01 0.12 0.90 1.10)
    anxiety := clamp05R (toScore5Scaled (anxiety01Of p) 0.00 1.00 1.20) }

/-- One session-log entry as the calibrator reads it: a missing or
non-numeric actual is modelled as none. -/
structure SessionEntry where
  id : String
  atTime : String
  productId : String
  actuals : Dim → Option ℝ
  notes : String

/-- The per-dimension calibration record of calculateUserCalibration. -/
structure Calibration where
  adjustment : ℝ
  confidence : ℝ
  dataPoints : Nat

/-- The confidence formula Math.min(sampleCount/10, 0.8) of
calculateUserCalibration, as an exact rational. -/
def confFun (n : Nat) : ℚ := min ((n : ℚ) / 10) 0.8

/-- The (actual − predicted) deltas a dimension collects in
calculateUserCalibration: entries with a numeric actual whose product is
found by id. -/
noncomputable def qualifyingDeltas (log : List SessionEntry) (prods : List ScoringProduct)
    (dim : Dim) : List ℝ :=
  log.filterMap (fun s =>
    match s.actuals dim with
    | none => none
    | some actual =>
      match prods.find? (fun p => p.id == s.productId) with
      | none => none
      | some p => some (actual - getDim (calculateBaselineScores p) dim))

/-- calculateUserCalibration of scoring.js, per dimension. -/
noncomputable def calculateUserCalibration (log : List SessionEntry)
    (prods : List ScoringProduct) (dim : Dim) : Calibration :=
  let ds := qualifyingDeltas log prods dim
  if ds.isEmpty then ⟨0, 0, 0⟩
  else ⟨ds.sum / (ds.length : ℝ), ((confFun ds.length : ℚ) : ℝ), ds.length⟩

/-- The per-dimension update step of calculatePersonalizedScores. -/
noncomputable def personalizeDim (base : Scores) (log : List SessionEntry)
    (prods : List ScoringProduct) (dim : Dim) : ℝ :=
  let cal := calculateUserCalibration log prods dim
  if 0 < cal.confidence then
    clamp05R (toHalfR (getDim base dim + cal.adjustment * cal.confidence))
  else getDim base dim

/-- calculatePersonalizedScores of scoring.js; the productId argument is
accepted and unused, as in the source. -/
noncomputable def calculatePersonalizedScores (base : Scores) (log : List SessionEntry)
    (_productId : String) (prods : List ScoringProduct) : Scores :=
  if log.isEmpty then base
  else
    { pain := personalizeDim base log prods Dim.pain
      head := personalizeDim base log prods Dim.head
      couch := personalizeDim base log prods Dim.couch
      clarity := personalizeDim base log prods Dim.clarity
      duration := personalizeDim base log prods Dim.duration
      functionality := personalizeDim base log prods Dim.functionality
      anxiety := personalizeDim base log prods Dim.anxiety }

end Scoring

/-! ## A small regex engine with JavaScript matching semantics

The store extractors are built from JS regex literals.  They are deeply
embedded here: each pattern is an RE value that mirrors the regex literal
construct by construct, and the matcher enumerates candidate matches in the
standard backtracking priority order (first alternative first, greedy
repetitions longest-first, lazy repetitions shortest-first, leftmost match
wins), which is the ECMAScript semantics for these constructs. -/

namespace Rex

/-- Regex abstract syntax: empty, a character class, concatenation,
alternation, counted repetition (lo..hi, hi = none means unbounded, lazyF
selects lazy matching), capture group, zero-width lookahead, word boundary
and end-of-input anchor. -/
inductive RE where
  | eps : RE
  | cls : (Char → Bool) → RE
  | cat : RE → RE → RE
  | alt : RE → RE → RE
  | rep : Nat → Option Nat → Bool → RE → RE
  | grp : Nat → RE → RE
  | look : RE → RE
  | wordB : RE
  | eos : RE

/-- Captured group spans: (group index, start, end); most recent first. -/
abbrev Caps := List (Nat × Nat × Nat)

/-- JS \w: ASCII letters, digits and underscore. -/
def isWordChar (c : Char) : Bool := c.isAlphanum || c == '_'

/-- Repetition matcher.  Each iteration must advance the position (the
ECMAScript rule that stops empty-match loops); therefore at most
input-length iterations can occur and the fuel argument, instantiated with
input.length + 2, is never exhausted on a reachable state. -/
def repGo (step : Nat → Caps → List (Nat × Caps)) (lazyF : Bool) :
    Nat → Nat → Option Nat → Nat → Caps → List (Nat × Caps)
  | 0, lo, _, pos, caps => if lo = 0 then [(pos, caps)] else []
  | fuel + 1, lo, hi, pos, caps =>
    let stop := if lo = 0 then [(pos, caps)] else []
    let more :=
      if hi = some 0 then []
      else
        ((step pos caps).filter (fun r => pos < r.1)).flatMap
          (fun r => repGo step lazyF fuel (lo - 1) (hi.map (fun h => h - 1)) r.1 r.2)
    if lazyF then stop ++ more else more ++ stop

/-- All matches of a regex at a position, as (end position, captures)
pairs in backtracking priority order. -/
def mAux (input : List Char) : RE → Nat → Caps → List (Nat × Caps)
  | RE.eps, pos, caps => [(pos, caps)]
  | RE.cls p, pos, caps =>
    match input[pos]? with
    | some c => if p c then [(pos + 1, caps)] else []
    | none => []
  | RE.cat a b, pos, caps => (mAux input a pos caps).flatMap (fun r => mAux input b r.1 r.2)
  | RE.alt a b, pos, caps => mAux input a pos caps ++ mAux input b pos caps
  | RE.rep lo hi lz a, pos, caps =>
    repGo (fun p c => mAux input a p c) lz (input.length + 2) lo hi pos caps
  | RE.grp i a, pos, caps => (mAux input a pos caps).map (fun r => (r.1, (i, pos, r.1) :: r.2))
  | RE.look a, pos, caps => if (mAux input a pos caps).isEmpty then [] else [(pos, caps)]
  | RE.wordB, pos, caps =>
    let prevW := match pos with
      | 0 => false
      | p + 1 => match input[p]? with | some c => isWordChar c | none => false
    let curW := match input[pos]? with | some c => isWordChar c | none => false
    if prevW != curW then [(pos, caps)] else []
  | RE.eos, pos, caps => if pos = input.length then [(pos, caps)] else []

/-- Leftmost search: try each start position in order (String.prototype.match
without the g flag); fuel covers every start position 0..length. -/
def searchAux (input : List Char) (re : RE) : Nat → Nat → Option (Nat × Nat × Caps)
  | 0, _ => none
  | fuel + 1, start =>
    match mAux input re start [] with
    | r :: _ => some (start, r.1, r.2)
    | [] => searchAux input re fuel (start + 1)

/-- First match of a regex in a string: (start, end, captures). -/
def search (re : RE) (s : String) : Option (Nat × Nat × Caps) :=
  searchAux s.toList re (s.toList.length + 1) 0

/-- Match anchored at position 0 (a regex whose literal starts with ^). -/
def matchAt0 (re : RE) (s : String) : Option (Nat × Nat × Caps) :=
  match mAux s.toList re 0 [] with
  | r :: _ => some (0, r.1, r.2)
  | [] => none

/-- RegExp.prototype.test. -/
def test (re : RE) (s : String) : Bool := (search re s).isSome

/-- Substring by positions. -/
def slice (s : String) (a b : Nat) : String := String.mk ((s.toList.drop a).take (b - a))

/-- Captured text of group i. -/
def capGet (s : String) (caps : Caps) (i : Nat) : Option String :=
  (caps.find? (fun c => c.1 == i)).map (fun c => slice s c.2.1 c.2.2)

/-- A case-sensitive literal character. -/
def chr (c : Char) : RE := RE.cls (fun x => x == c)

/-- A case-insensitive literal character (the i flag). -/
def chrCI (c : Char) : RE := RE.cls (fun x => jsToLower x == jsToLower c)

/-- Concatenation of a pattern list. -/
def catL (l : List RE) : RE := l.foldr RE.cat RE.eps

/-- Alternation of a pattern list, first alternative preferred. -/
def altL : List RE → RE
  | [] => RE.cls (fun _ => false)
  | [r] => r
  | r :: rest => RE.alt r (altL rest)

/-- A case-insensitive literal string. -/
def strCI (s : String) : RE := catL (s.toList.map chrCI)

/-- Greedy star. -/
def star (r : RE) : RE := RE.rep 0 none false r

/-- Greedy plus. -/
def plus (r : RE) : RE := RE.rep 1 none false r

/-- Lazy plus (the +? quantifier). -/
def plusLazy (r : RE) : RE := RE.rep 1 none true r

/-- Greedy option (the ? quantifier). -/
def opt (r : RE) : RE := RE.rep 0 (some 1) false r

/-- Greedy bounded repetition, up to n times. -/
def repMax (n : Nat) (r : RE) : RE := RE.rep 0 (some n) false r

/-- Lazy bounded repetition, up to n times. -/
def repMaxLazy (n : Nat) (r : RE) : RE := RE.rep 0 (some n) true r

/-- The class \s. -/
def wsCls : RE := RE.cls jsWhite

/-- The class [\s\S] (any character). -/
def anyCls : RE := RE.cls (fun _ => true)

/-- The class [^\n]. -/
def notNl : RE := RE.cls (fun c => c != '\n')

/-- The class \d / [0-9]. -/
def digitCls : RE := RE.cls Char.isDigit

/-- The class [0-9.]. -/
def digitDot : RE := RE.cls (fun c => c.isDigit || c == '.')

/-- The class [:\s]. -/
def colonWs : RE := RE.cls (fun c => c == ':' || jsWhite c)

end Rex

/-! ## src/store/mmetStore.js — COA text parsing and profile import/export -/

namespace MmetStore

open Rex

/-- Digit-string value. -/
def digitsToNat (l : List Char) : Nat := l.foldl (fun a c => a * 10 + (c.toNat - 48)) 0

/-- JS Number() of a string over the alphabet [0-9.]: the empty string is 0,
more than one dot or no digit at all is NaN (none). -/
def jsNumberOfDigitsDots (s : String) : Option ℚ :=
  let cs := s.toList
  let dots := (cs.filter (fun c => c == '.')).length
  let digits := cs.filter Char.isDigit
  if cs.isEmpty then some 0
  else if 1 < dots then none
  else if digits.isEmpty then none
  else
    let intPart := cs.takeWhile (fun c => !(c == '.'))
    let fracPart := (cs.dropWhile (fun c => !(c == '.'))).drop 1
    some ((digitsToNat intPart : ℚ) + (digitsToNat fracPart : ℚ) / ((10 : ℚ) ^ fracPart.length))

/-- toNumber of mmetStore.js: strip every character but digits and dots,
then Number(); null when the result is not finite. -/
def toNumber (v : Option String) : Option ℚ :=
  match v with
  | none => none
  | some s => jsNumberOfDigitsDots (String.mk (s.toList.filter (fun c => c.isDigit || c == '.')))

/-- parseFloat on a capture of ([0-9]+\.[0-9]+), which is always a plain
decimal literal, so it agrees with Number(). -/
def parseFloatQ (s : String) : ℚ := (jsNumberOfDigitsDots s).getD 0

/-- Split on /\r?\n/ (String.prototype.split), keeping empty pieces. -/
def splitLinesAux : List Char → List Char → List String
  | [], acc => [String.mk acc.reverse]
  | c :: t, acc =>
    if c == '\n' then
      String.mk ((match acc with | '\r' :: r => r | _ => acc).reverse) :: splitLinesAux t []
    else splitLinesAux t (c :: acc)

/-- Split a string on /\r?\n/. -/
def splitLines (s : String) : List String := splitLinesAux s.toList []

/-- firstNonEmptyLine of mmetStore.js. -/
def firstNonEmptyLine (t : String) : String :=
  (((splitLines t).map jsTrim).find? (fun l => l ≠ (""))).getD ("Unknown Product")

/-- The regex /Product\s*Name:\s*([^\n]+)/i. -/
def reProductName : RE :=
  catL [strCI ("product"), star wsCls, strCI ("name:"), star wsCls, RE.grp 1 (plus notNl)]

/-- The regex /Cultivar:\s*([^\n]+)/i. -/
def reCultivar : RE := catL [strCI ("cultivar:"), star wsCls, RE.grp 1 (plus notNl)]

/-- The regex /Sample\s*Matrix:\s*([^\n]+)/i. -/
def reSampleMatrix : RE :=
  catL [strCI ("sample"), star wsCls, strCI ("matrix:"), star wsCls, RE.grp 1 (plus notNl)]

/-- The class [\sA-Z0-9#-] under the i flag. -/
def hazeCls : RE := RE.cls (fun c => jsWhite c || c.isAlpha || c.isDigit || c == '#' || c == '-')

/-- The class [IHS] under the i flag. -/
def ihsCls : RE :=
  RE.cls (fun c => jsToLower c == 'i' || jsToLower c == 'h' || jsToLower c == 's')

/-- The regex /(HAZE[\sA-Z0-9#-]+\([IHS]\)[^\n]{0,80}\b\d+(?:\.\d+)?\s*g\b)/i. -/
def reHaze : RE :=
  RE.grp 1 (catL [strCI ("haze"), plus hazeCls, chr '(', ihsCls, chr ')', repMax 80 notNl,
    RE.wordB, plus digitCls, opt (catL [chr '.', plus digitCls]), star wsCls, chrCI 'g',
    RE.wordB])

/-- extractProductName of mmetStore.js: labelled name, then cultivar with
optional sample-matrix suffix, then the HAZE house format, then the first
non-empty line. -/
def extractProductName (t : String) : String :=
  match search reProductName t with
  | some m => jsTrim ((capGet t m.2.2 1).getD (""))
  | none =>
    match search reCultivar t with
    | some m =>
      let cultivar := jsTrim ((capGet t m.2.2 1).getD (""))
      match search reSampleMatrix t with
      | some fm => cultivar ++ (" ") ++ jsTrim ((capGet t fm.2.2 1).getD (""))
      | none => cultivar
    | none =>
      match search reHaze t with
      | some m => jsTrim ((capGet t m.2.2 1).getD (""))
      | none => firstNonEmptyLine t

/-- The regex /Form:\s*([^\n]+)/i. -/
def reFormLabel : RE := catL [strCI ("form:"), star wsCls, RE.grp 1 (plus notNl)]

/-- The formTypes keyword list of extractForm, in source order. -/
def formTypes : List String :=
  [("Live Badder"), ("Live Rosin"), ("Live Sugar"), ("Live Resin"), ("Live Sauce"),
   ("Diamonds"), ("Flower"), ("Cart"), ("Vape"), ("Wax"), ("Jam"), ("Extract"), ("Crumble")]

/-- extractForm of mmetStore.js. -/
def extractForm (t : String) : Option String :=
  match search reSampleMatrix t with
  | some m => some (jsTrim ((capGet t m.2.2 1).getD ("")))
  | none =>
    match search reFormLabel t with
    | some m => some (jsTrim ((capGet t m.2.2 1).getD ("")))
    | none => formTypes.find? (fun ft => test (strCI ft) t)

/-- The regex /Total\s+THC[:\s]+([0-9.]+)\s*%/i. -/
def reTHC1 : RE :=
  catL [strCI ("total"), plus wsCls, strCI ("thc"), plus colonWs, RE.grp 1 (plus digitDot),
    star wsCls, chr '%']

/-- The regex /Total\s+THC[\s\n]+([0-9.]+)\s*%/i. -/
def reTHC2 : RE :=
  catL [strCI ("total"), plus wsCls, strCI ("thc"), plus wsCls, RE.grp 1 (plus digitDot),
    star wsCls, chr '%']

/-- The regex /\bTHCa\b[:\s]+([0-9.]+)\s*%/i. -/
def reTHCa1 : RE :=
  catL [RE.wordB, strCI ("thca"), RE.wordB, plus colonWs, RE.grp 1 (plus digitDot),
    star wsCls, chr '%']

/-- The regex /\bTHC-A\b[:\s]+([0-9.]+)\s*%/i. -/
def reTHCa2 : RE :=
  catL [RE.wordB, strCI ("thc-a"), RE.wordB, plus colonWs, RE.grp 1 (plus digitDot),
    star wsCls, chr '%']

/-- The class [-\s]. -/
def dashWsCls : RE := RE.cls (fun c => c == '-' || jsWhite c)

/-- The regex /\b(Delta[-\s]*9\s*THC|Δ9\s*THC|D9\s*THC)\b[:\s]+([0-9.]+)\s*%/i. -/
def reD9a : RE :=
  catL [RE.wordB,
    RE.grp 1 (altL
      [catL [strCI ("delta"), star dashWsCls, chr '9', star wsCls, strCI ("thc")],
       catL [chrCI 'Δ', chr '9', star wsCls, strCI ("thc")],
       catL [chrCI 'd', chr '9', star wsCls, strCI ("thc")]]),
    RE.wordB, plus colonWs, RE.grp 2 (plus digitDot), star wsCls, chr '%']

/-- The regex /\bDelta\s*9\b[\s\S]{0,30}?([0-9.]+)\s*%/i. -/
def reD9b : RE :=
  catL [RE.wordB, strCI ("delta"), star wsCls, chr '9', RE.wordB, repMaxLazy 30 anyCls,
    RE.grp 1 (plus digitDot), star wsCls, chr '%']

/-- extractTotalTHC of mmetStore.js: explicit Total THC label (two layouts),
else Total THC = Δ9 + THCa · 0.877 from component acids, else null. -/
def extractTotalTHC (t : String) : Option ℚ :=
  match search reTHC1 t with
  | some m => toNumber (capGet t m.2.2 1)
  | none =>
    match search reTHC2 t with
    | some m => toNumber (capGet t m.2.2 1)
    | none =>
      let thcaM := match search reTHCa1 t with
        | some m => some m
        | none => search reTHCa2 t
      let d9 : Option ℚ := match search reD9a t with
        | some m => toNumber (capGet t m.2.2 2)
        | none =>
          match search reD9b t with
          | some m => toNumber (capGet t m.2.2 1)
          | none => none
      let thca : Option ℚ := thcaM.bind (fun m => toNumber (capGet t m.2.2 1))
      if thca.isSome || d9.isSome then
        let total := d9.getD 0 + thca.getD 0 * 0.877
        if 0 < total then some (Terpenes.roundPct total) else none
      else none

/-- The regex /Total\s+Terpenes[:\s]+([0-9.]+)\s*%/i. -/
def reTT1 : RE :=
  catL [strCI ("total"), plus wsCls, strCI ("terpenes"), plus colonWs,
    RE.grp 1 (plus digitDot), star wsCls, chr '%']

/-- The regex /([0-9.]+)%[\s\n]+Total\s+Terpenes/i. -/
def reTT2 : RE :=
  catL [RE.grp 1 (plus digitDot), chr '%', plus wsCls, strCI ("total"), plus wsCls,
    strCI ("terpenes")]

/-- The regex /Total\s+Terpenes[:\s]+([0-9.]+)\s*(mg\/g|mg\s*\/\s*g)/i. -/
def reTT3 : RE :=
  catL [strCI ("total"), plus wsCls, strCI ("terpenes"), plus colonWs,
    RE.grp 1 (plus digitDot), star wsCls,
    RE.grp 2 (altL [strCI ("mg/g"), catL [strCI ("mg"), star wsCls, chr '/', star wsCls,
      chrCI 'g']])]

/-- The regex /Total\s+Terpenes[:\s]+([0-9.]+)(?:\s|$)/i. -/
def reTT4 : RE :=
  catL [strCI ("total"), plus wsCls, strCI ("terpenes"), plus colonWs,
    RE.grp 1 (plus digitDot), altL [wsCls, RE.eos]]

/-- extractTotalTerpenes of mmetStore.js: explicit percent label (two
layouts), mg/g converted by /10, else a bare number with magnitude-based
unit disambiguation. -/
def extractTotalTerpenes (t : String) : Option ℚ :=
  match search reTT1 t with
  | some m => toNumber (capGet t m.2.2 1)
  | none =>
    match search reTT2 t with
    | some m => toNumber (capGet t m.2.2 1)
    | none =>
      match search reTT3 t with
      | some m => some (Terpenes.roundPct ((toNumber (capGet t m.2.2 1)).getD 0 / 10))
      | none =>
        match search reTT4 t with
        | some m =>
          match toNumber (capGet t m.2.2 1) with
          | none => none
          | some v =>
            if 300 < v then some (Terpenes.roundPct (v / 100))
            else if 30 < v then some (Terpenes.roundPct (v / 10))
            else if 0 < v then some (Terpenes.roundPct v)
            else none
        | none => none

/-- The regex /TERPENES[\s\S]+?(?=POTENCY|ANALYSIS|Copyright|Page|$)/i. -/
def reTerpSection : RE :=
  catL [strCI ("terpenes"), plusLazy anyCls,
    RE.look (altL [strCI ("potency"), strCI ("analysis"), strCI ("copyright"),
      strCI ("page"), RE.eos])]

/-- The line filter /Analyte|Result|Top Ten|Total Terpenes|SUMMARY/i. -/
def reLineFilter : RE :=
  altL [strCI ("analyte"), strCI ("result"), strCI ("top ten"), strCI ("total terpenes"),
    strCI ("summary")]

/-- The class [A-Za-z]. -/
def alphaCls : RE := RE.cls Char.isAlpha

/-- The class [A-Za-z0-9\-\s]. -/
def nameCls : RE := RE.cls (fun c => c.isAlphanum || c == '-' || jsWhite c)

/-- The regex /^([A-Za-z][A-Za-z0-9\-\s]+?)\s+([0-9]+\.[0-9]+)(?:\s|$)/
(a bare name-number line, no percent sign). -/
def reLine1 : RE :=
  catL [RE.grp 1 (catL [alphaCls, plusLazy nameCls]), plus wsCls,
    RE.grp 2 (catL [plus digitCls, chr '.', plus digitCls]), altL [wsCls, RE.eos]]

/-- The regex /([A-Za-z][A-Za-z0-9\-\s]+?)\s+([0-9]+\.[0-9]+)%/. -/
def reLine2 : RE :=
  catL [RE.grp 1 (catL [alphaCls, plusLazy nameCls]), plus wsCls,
    RE.grp 2 (catL [plus digitCls, chr '.', plus digitCls]), chr '%']

/-- The dedup key of extractTerpenePairs:
name.toLowerCase().replace(/[^a-z]/g, ""). -/
def keyOf (name : String) : String :=
  String.mk ((name.toList.map jsToLower).filter Char.isLower)

/-- One candidate acceptance step of extractTerpenePairs. -/
def pushPair (acc : List (String × ℚ) × List String) (name : String) (pct : ℚ) :
    Option (List (String × ℚ) × List String) :=
  let key := keyOf name
  if 0 < pct ∧ pct < 50 ∧ ¬ acc.2.contains key then
    some (acc.1 ++ [(name, pct)], key :: acc.2)
  else none

/-- The pattern-2 attempt of the extractTerpenePairs loop body. -/
def tryLine2 (acc : List (String × ℚ) × List String) (line : String) :
    List (String × ℚ) × List String :=
  match search reLine2 line with
  | some m =>
    let name := jsTrim ((capGet line m.2.2 1).getD (""))
    let pct := parseFloatQ ((capGet line m.2.2 2).getD (""))
    ((pushPair acc name pct).getD acc)
  | none => acc

/-- The loop body of extractTerpenePairs: skip filtered lines, try the bare
name-number pattern first (falling through to the percent pattern when it
does not yield an accepted pair), then the percent pattern. -/
def lineStep (acc : List (String × ℚ) × List String) (line : String) :
    List (String × ℚ) × List String :=
  if test reLineFilter line then acc
  else
    match matchAt0 reLine1 line with
    | some m =>
      let name := jsTrim ((capGet line m.2.2 1).getD (""))
      let pct := parseFloatQ ((capGet line m.2.2 2).getD (""))
      match pushPair acc name pct with
      | some acc2 => acc2
      | none => tryLine2 acc line
    | none => tryLine2 acc line

/-- extractTerpenePairs of mmetStore.js: scan the TERPENES section (or the
whole text) line by line for (name, percent) candidates. -/
def extractTerpenePairs (t : String) : List (String × ℚ) :=
  let terpSection := match search reTerpSection t with
    | some m => slice t m.1 m.2.1
    | none => t
  ((splitLines terpSection).foldl lineStep ([], [])).1

/-- normalizeAndCombineTerps of mmetStore.js: canonicalize names with the
terpenes.js canonicalizer, merge duplicates by summation, round, sort
descending by pct (no top-N cut here). -/
def normalizeAndCombineTerps (pairs : List (String × ℚ)) : List (String × ℚ) :=
  let m := pairs.foldl (fun m t =>
    let name := Terpenes.normalizeTerpName (some t.1)
    let pct := t.2
    if name = ("") then m
    else if pct ≤ 0 then m
    else mapSet m name ((mapGet m name).getD 0 + pct)) []
  Terpenes.sortPctDesc (m.map (fun p => (p.1, Terpenes.roundPct p.2)))

/-- The Product record built by parseCoaTextToProduct (metrics and coa
sub-objects flattened; the uuid and the two ISO timestamps are parameters,
standing for the runtime RNG and clock). -/
structure Product where
  id : String
  name : String
  form : Option String
  metricsTotalTHC : Option ℚ
  metricsTotalTerpenes : Option ℚ
  metricsTotalCannabinoids : Option ℚ
  metricsThcPerUnitMg : Option ℚ
  terpenes : List (String × ℚ)
  top6 : List (String × ℚ)
  coaRawText : String
  coaSourceFileName : Option String
  coaParsedAt : String
  createdAt : String

/-- JS falsiness of a nullable number (null, undefined and 0 are falsy). -/
def jsFalsyQ (o : Option ℚ) : Bool :=
  match o with
  | none => true
  | some v => v == 0

/-- parseCoaTextToProduct of mmetStore.js: trim; abandon on empty text;
extract name/form/THC/terpenes; abandon when no usable (nonzero) Total THC
was recovered; otherwise build the Product. -/
def parseCoaTextToProduct (coaText : String) (sourceFileName : Option String)
    (genId now : String) : Option Product :=
  let text := jsTrim coaText
  if text = ("") then none
  else
    let name := extractProductName text
    let form := extractForm text
    let totalTHC := extractTotalTHC text
    let totalTerpenes := extractTotalTerpenes text
    if jsFalsyQ totalTHC then none
    else
      let rawPairs := extractTerpenePairs text
      let normalizedTerpenes := normalizeAndCombineTerps rawPairs
      let top6 := Terpenes.getTop6Terpenes
        (normalizedTerpenes.map (fun p => some ⟨some p.1, some p.2⟩))
      some
        { id := genId
          name := name
          form := form
          metricsTotalTHC := totalTHC
          metricsTotalTerpenes := totalTerpenes
          metricsTotalCannabinoids := none
          metricsThcPerUnitMg := none
          terpenes := normalizedTerpenes
          top6 := top6
          coaRawText :=
            if 5000 < text.length then String.mk (text.toList.take 5000) ++ ("...") else text
          coaSourceFileName := sourceFileName
          coaParsedAt := now
          createdAt := now }

/-- The slice of the zustand store state that parseCoaText touches. -/
structure StoreState where
  products : List Product
  lastError : Option String

/-- The parseCoaText store action: on a parsed product, prepend it to the
products list and clear lastError, returning the one-element list; on
failure return null with the state unchanged.  The embedded
parseCoaTextToProduct is total, so the catch branch of the source is
unreachable here. -/
def parseCoaText (coaText : String) (sourceFileName : Option String) (genId now : String)
    (st : StoreState) : Option (List Product) × StoreState :=
  match parseCoaTextToProduct coaText sourceFileName genId now with
  | none => (none, st)
  | some p => (some [p], { products := p :: st.products, lastError := none })

/-- A JSON value (exportProfileJson serializes one; importProfileJson
consumes one — its non-string input path takes the already-parsed value
directly, and JSON.parse ∘ JSON.stringify is the identity on the
JSON-serializable payloads the export builds, so profile round-trips are
settled at this value level). -/
inductive Json where
  | jnull : Json
  | jbool : Bool → Json
  | jnum : ℚ → Json
  | jstr : String → Json
  | jarr : List Json → Json
  | jobj : List (String × Json) → Json

/-- JS property access data[k] on a parsed JSON value: undefined (none)
when the value is not an object or lacks the key. -/
def jGet (j : Json) (k : String) : Option Json :=
  match j with
  | Json.jobj fs => (fs.find? (fun p => p.1 == k)).map (fun p => p.2)
  | _ => none

/-- The profile fields the store owns (profileName is a string in every
state the store itself produces: setProfileName coerces with
String(name || "Default")).  Products and session-log entries are carried
as opaque JSON values — exportProfileJson embeds them unchanged. -/
structure ProfileState where
  profileName : String
  products : List Json
  sessionLog : List Json

/-- The payload object exportProfileJson builds (before JSON.stringify);
the exportedAt timestamp is a parameter standing for the runtime clock. -/
def exportPayload (s : ProfileState) (now : String) : Json :=
  Json.jobj
    [(("app"), Json.jstr ("MMET Predictor")),
     (("version"), Json.jnum 2),
     (("exportedAt"), Json.jstr now),
     (("profileName"), Json.jstr s.profileName),
     (("products"), Json.jarr s.products),
     (("sessionLog"), Json.jarr s.sessionLog)]

/-- The outcome record importProfileJson returns on success. -/
structure ImportOutcome where
  ok : Bool
  productsCount : Nat
  sessionsCount : Nat
deriving DecidableEq, Repr

/-- importProfileJson of mmetStore.js on an already-parsed value: products
and sessionLog are taken when they are arrays (else []), profileName is
taken unless null/undefined (the ?? operator keeps the previous name
then).  A non-string, non-null profileName value never arises from
exported payloads and cannot inhabit the String-typed field, so it also
keeps the previous name here. -/
def importProfileValue (data : Json) (s : ProfileState) : ProfileState × ImportOutcome :=
  let products := match jGet data ("products") with
    | some (Json.jarr xs) => xs
    | _ => []
  let sessionLog := match jGet data ("sessionLog") with
    | some (Json.jarr xs) => xs
    | _ => []
  let profileName := match jGet data ("profileName") with
    | some (Json.jstr v) => v
    | _ => s.profileName
  ({ profileName := profileName, products := products, sessionLog := sessionLog },
   ⟨true, products.length, sessionLog.length⟩)

end MmetStore

/-! ## Reference definitions for claim statements -/

namespace MmetBaselineFormulas

/-- The THC/terpene blend as the specification words it: fixed weights
THC_WEIGHT = 0.65 on the THC vector and TERP_WEIGHT = 0.25 on the
terpene-adjusted vector.  This follows the spec text; the source instead
mixes with weights (1 − TERP_WEIGHT) and TERP_WEIGHT (see thcTerpBlendOf),
and the two are compared below. -/
def thcTerpBlendSpecWeights (inp : BaselineInput) : EffectVec :=
  mixWeighted (thcVecOf inp) (terpVecOf inp) THC_WEIGHT TERP_WEIGHT

end MmetBaselineFormulas

namespace Scoring

/-- A concrete product used to instantiate the calibration theorem. -/
def wprodC6 : ScoringProduct :=
  ⟨("p1"), some 20, some 2, some ("flower"), some []⟩

/-- A concrete one-entry session log: a pain rating of 3 for product p1. -/
def wlogC6 : List SessionEntry :=
  [⟨("s1"), ("t1"), ("p1"),
    (fun d => match d with | Dim.pain => some 3 | _ => none), ("")⟩]

/-- A concrete baseline score record. -/
def wbaseC6 : Scores := ⟨2, 2, 2, 2, 2, 2, 2⟩

end Scoring

/-! ## Shared helper lemmas -/

namespace MmetBaselineFormulas

/-- Membership of all five effect dimensions in [0,1]. -/
def InUnit (v : EffectVec) : Prop :=
  0 ≤ v.head ∧ v.head ≤ 1 ∧ 0 ≤ v.clarity ∧ v.clarity ≤ 1 ∧ 0 ≤ v.sedation ∧ v.sedation ≤ 1 ∧
  0 ≤ v.couch ∧ v.couch ≤ 1 ∧ 0 ≤ v.pain ∧ v.pain ≤ 1

instance (v : EffectVec) : Decidable (InUnit v) := by unfold InUnit; infer_instance

theorem clamp01_nonneg (x : ℚ) : 0 ≤ clamp01 x := le_max_left 0 _

theorem clamp01_le_one (x : ℚ) : clamp01 x ≤ 1 :=
  max_le (by norm_num) (min_le_left 1 x)

theorem clamp01_of_mem {x : ℚ} (h0 : 0 ≤ x) (h1 : x ≤ 1) : clamp01 x = x := by
  unfold clamp01
  rw [min_eq_right h1, max_eq_right h0]

theorem clamp01_of_nonpos {x : ℚ} (h : x ≤ 0) : clamp01 x = 0 := by
  unfold clamp01
  rw [min_eq_right (le_trans h (by norm_num)), max_eq_left h]

theorem zeroVec_inUnit : InUnit zeroVec := by decide

theorem thcBaseVector_inUnit (p : ℚ) : InUnit (thcBaseVector p) :=
  ⟨clamp01_nonneg _, clamp01_le_one _, clamp01_nonneg _, clamp01_le_one _, clamp01_nonneg _,
   clamp01_le_one _, clamp01_nonneg _, clamp01_le_one _, clamp01_nonneg _, clamp01_le_one _⟩

theorem mixWeighted_inUnit (a b : EffectVec) (wA wB : ℚ) : InUnit (mixWeighted a b wA wB) :=
  ⟨clamp01_nonneg _, clamp01_le_one _, clamp01_nonneg _, clamp01_le_one _, clamp01_nonneg _,
   clamp01_le_one _, clamp01_nonneg _, clamp01_le_one _, clamp01_nonneg _, clamp01_le_one _⟩

theorem stepCaryo_inUnit (c ts : ℚ) (v : EffectVec) (h : InUnit v) :
    InUnit (stepCaryo c ts v) := by
  obtain ⟨hh0, hh1, hc0, hc1, hs0, hs1, hk0, hk1, hp0, hp1⟩ := h
  unfold stepCaryo
  split
  · exact ⟨hh0, hh1, hc0, hc1, clamp01_nonneg _, clamp01_le_one _, clamp01_nonneg _, clamp01_le_one _, clamp01_nonneg _, clamp01_le_one _⟩
  · exact ⟨hh0, hh1, hc0, hc1, hs0, hs1, hk0, hk1, hp0, hp1⟩

theorem stepLinalool_inUnit (c ts : ℚ) (v : EffectVec) (h : InUnit v) :
    InUnit (stepLinalool c ts v) := by
  obtain ⟨hh0, hh1, hc0, hc1, hs0, hs1, hk0, hk1, hp0, hp1⟩ := h
  unfold stepLinalool
  split
  · exact ⟨hh0, hh1, clamp01_nonneg _, clamp01_le_one _, clamp01_nonneg _, clamp01_le_one _, clamp01_nonneg _, clamp01_le_one _, hp0, hp1⟩
  · exact ⟨hh0, hh1, hc0, hc1, hs0, hs1, hk0, hk1, hp0, hp1⟩

theorem stepLimonene_inUnit (c ts : ℚ) (v : EffectVec) (h : InUnit v) :
    InUnit (stepLimonene c ts v) := by
  obtain ⟨hh0, hh1, hc0, hc1, hs0, hs1, hk0, hk1, hp0, hp1⟩ := h
  unfold stepLimonene
  split
  · exact ⟨clamp01_nonneg _, clamp01_le_one _, clamp01_nonneg _, clamp01_le_one _, clamp01_nonneg _, clamp01_le_one _, hk0, hk1, hp0, hp1⟩
  · exact ⟨hh0, hh1, hc0, hc1, hs0, hs1, hk0, hk1, hp0, hp1⟩

theorem stepMyrcene_inUnit (c ts : ℚ) (v : EffectVec) (h : InUnit v) :
    InUnit (stepMyrcene c ts v) := by
  obtain ⟨hh0, hh1, hc0, hc1, hs0, hs1, hk0, hk1, hp0, hp1⟩ := h
  unfold stepMyrcene
  split
  · exact ⟨hh0, hh1, clamp01_nonneg _, clamp01_le_one _, clamp01_nonneg _, clamp01_le_one _, clamp01_nonneg _, clamp01_le_one _, hp0, hp1⟩
  · exact ⟨hh0, hh1, hc0, hc1, hs0, hs1, hk0, hk1, hp0, hp1⟩

theorem stepHumulene_inUnit (c ts : ℚ) (v : EffectVec) (h : InUnit v) :
    InUnit (stepHumulene c ts v) := by
  obtain ⟨hh0, hh1, hc0, hc1, hs0, hs1, hk0, hk1, hp0, hp1⟩ := h
  unfold stepHumulene
  split
  · exact ⟨hh0, hh1, hc0, hc1, clamp01_nonneg _, clamp01_le_one _, hk0, hk1, clamp01_nonneg _, clamp01_le_one _⟩
  · exact ⟨hh0, hh1, hc0, hc1, hs0, hs1, hk0, hk1, hp0, hp1⟩

theorem stepBisabolol_inUnit (c ts : ℚ) (v : EffectVec) (h : InUnit v) :
    InUnit (stepBisabolol c ts v) := by
  obtain ⟨hh0, hh1, hc0, hc1, hs0, hs1, hk0, hk1, hp0, hp1⟩ := h
  unfold stepBisabolol
  split
  · exact ⟨hh0, hh1, hc0, hc1, clamp01_nonneg _, clamp01_le_one _, hk0, hk1, clamp01_nonneg _, clamp01_le_one _⟩
  · exact ⟨hh0, hh1, hc0, hc1, hs0, hs1, hk0, hk1, hp0, hp1⟩

theorem stepTerpinolene_inUnit (c ts : ℚ) (v : EffectVec) (h : InUnit v) :
    InUnit (stepTerpinolene c ts v) := by
  obtain ⟨hh0, hh1, hc0, hc1, hs0, hs1, hk0, hk1, hp0, hp1⟩ := h
  unfold stepTerpinolene
  split
  · exact ⟨clamp01_nonneg _, clamp01_le_one _, clamp01_nonneg _, clamp01_le_one _, hs0, hs1, hk0, hk1, hp0, hp1⟩
  · exact ⟨hh0, hh1, hc0, hc1, hs0, hs1, hk0, hk1, hp0, hp1⟩

theorem stepPinene_inUnit (c ts : ℚ) (v : EffectVec) (h : InUnit v) :
    InUnit (stepPinene c ts v) := by
  obtain ⟨hh0, hh1, hc0, hc1, hs0, hs1, hk0, hk1, hp0, hp1⟩ := h
  unfold stepPinene
  split
  · exact ⟨hh0, hh1, clamp01_nonneg _, clamp01_le_one _, clamp01_nonneg _, clamp01_le_one _, hk0, hk1, hp0, hp1⟩
  · exact ⟨hh0, hh1, hc0, hc1, hs0, hs1, hk0, hk1, hp0, hp1⟩

theorem stepOcimene_inUnit (c ts : ℚ) (v : EffectVec) (h : InUnit v) :
    InUnit (stepOcimene c ts v) := by
  obtain ⟨hh0, hh1, hc0, hc1, hs0, hs1, hk0, hk1, hp0, hp1⟩ := h
  unfold stepOcimene
  split
  · exact ⟨clamp01_nonneg _, clamp01_le_one _, hc0, hc1, hs0, hs1, hk0, hk1, hp0, hp1⟩
  · exact ⟨hh0, hh1, hc0, hc1, hs0, hs1, hk0, hk1, hp0, hp1⟩

theorem applyTerpModifiers_inUnit (v : EffectVec) (m : List (String × ℚ)) (t : ℚ)
    (hv : InUnit v) : InUnit (applyTerpModifiers v m t) := by
  simp only [applyTerpModifiers]
  exact stepOcimene_inUnit _ _ _ (stepPinene_inUnit _ _ _ (stepTerpinolene_inUnit _ _ _
    (stepBisabolol_inUnit _ _ _ (stepHumulene_inUnit _ _ _ (stepMyrcene_inUnit _ _ _
      (stepLimonene_inUnit _ _ _ (stepLinalool_inUnit _ _ _ (stepCaryo_inUnit _ _ _ hv))))))))

theorem applyIntensityShaping_inUnit (v : EffectVec) (i : ℚ) (hv : InUnit v) :
    InUnit (applyIntensityShaping v i) := by
  simp only [applyIntensityShaping]
  split
  · exact hv
  · exact ⟨clamp01_nonneg _, clamp01_le_one _, clamp01_nonneg _, clamp01_le_one _,
      clamp01_nonneg _, clamp01_le_one _, clamp01_nonneg _, clamp01_le_one _,
      clamp01_nonneg _, clamp01_le_one _⟩

theorem scaledOf_inUnit (inp : BaselineInput) : InUnit (scaledOf inp) := by
  unfold scaledOf
  split
  · exact zeroVec_inUnit
  · exact applyIntensityShaping_inUnit _ _ (mixWeighted_inUnit _ _ _ _)

theorem anxietyRiskOf_mem (inp : BaselineInput) :
    0 ≤ anxietyRiskOf inp ∧ anxietyRiskOf inp ≤ 1 := by
  simp only [anxietyRiskOf]
  repeat' split
  all_goals exact ⟨clamp01_nonneg _, clamp01_le_one _⟩

theorem couchOf_mem (inp : BaselineInput) : 0 ≤ couchOf inp ∧ couchOf inp ≤ 1 := by
  have h := scaledOf_inUnit inp
  unfold couchOf
  split
  · exact ⟨clamp01_nonneg _, clamp01_le_one _⟩
  · exact ⟨h.2.2.2.2.2.2.1, h.2.2.2.2.2.2.2.1⟩

/-- Every form string normalizes to one of the six canonical keys. -/
theorem normalizeFormType_cases (o : Option String) :
    normalizeFormType o = ("topical") ∨ normalizeFormType o = ("edible") ∨
    normalizeFormType o = ("vape") ∨ normalizeFormType o = ("live_resin") ∨
    normalizeFormType o = ("concentrate") ∨ normalizeFormType o = ("flower") := by
  simp only [normalizeFormType]
  repeat' split
  all_goals simp

/-- A non-topical form key never has intensity modifier 0. -/
theorem intensity_ne_zero (inp : BaselineInput)
    (hnt : normalizeFormType inp.form ≠ ("topical")) : ¬ intensityOf inp = 0 := by
  rcases normalizeFormType_cases inp.form with h | h | h | h | h | h
  · exact absurd h hnt
  all_goals unfold intensityOf formOf formKeyOf
  all_goals rw [h]
  all_goals with_unfolding_all decide

/-- Intensity shaping written as one additive clamped update per dimension
in max(0, intensity − 1); the shortcut branch for i ≤ 0 coincides with it
because the input vector already lies in the unit box. -/
theorem shaping_eq (v : EffectVec) (intensity : ℚ) (hv : InUnit v) :
    applyIntensityShaping v intensity =
      ⟨clamp01 (v.head + 0.05 * max 0 (intensity - 1)),
       clamp01 (v.clarity - 0.10 * max 0 (intensity - 1)),
       clamp01 (v.sedation + 0.18 * max 0 (intensity - 1)),
       clamp01 (v.couch + 0.14 * max 0 (intensity - 1)),
       clamp01 (v.pain + 0.10 * max 0 (intensity - 1))⟩ := by
  obtain ⟨hh0, hh1, hc0, hc1, hs0, hs1, hk0, hk1, hp0, hp1⟩ := hv
  simp only [applyIntensityShaping]
  by_cases h : max 0 (intensity - 1) ≤ 0
  · rw [if_pos h]
    have hz : max 0 (intensity - 1) = 0 := le_antisymm h (le_max_left _ _)
    rw [hz]
    have e1 : clamp01 (v.head + 0.05 * 0) = v.head := by
      rw [mul_zero, add_zero]; exact clamp01_of_mem hh0 hh1
    have e2 : clamp01 (v.clarity - 0.10 * 0) = v.clarity := by
      rw [mul_zero, sub_zero]; exact clamp01_of_mem hc0 hc1
    have e3 : clamp01 (v.sedation + 0.18 * 0) = v.sedation := by
      rw [mul_zero, add_zero]; exact clamp01_of_mem hs0 hs1
    have e4 : clamp01 (v.couch + 0.14 * 0) = v.couch := by
      rw [mul_zero, add_zero]; exact clamp01_of_mem hk0 hk1
    have e5 : clamp01 (v.pain + 0.10 * 0) = v.pain := by
      rw [mul_zero, add_zero]; exact clamp01_of_mem hp0 hp1
    rw [e1, e2, e3, e4, e5]
  · rw [if_neg h]

end MmetBaselineFormulas

namespace Terpenes

theorem mapGet_mapSet (m : List (String × ℚ)) (kk j : String) (v : ℚ) :
    mapGet (mapSet m kk v) j = if kk = j then some v else mapGet m j := by
  induction m with
  | nil =>
    by_cases h : kk = j <;> simp [mapSet, mapGet, List.find?_cons, h]
  | cons hd tl ih =>
    obtain ⟨k0, v0⟩ := hd
    by_cases h0 : k0 = kk
    · subst h0
      by_cases h : k0 = j <;> simp [mapSet, mapGet, List.find?_cons, h]
    · have hne : (k0 == kk) = false := by simp [h0]
      by_cases h : k0 = j
      · subst h
        have hkj : ¬ kk = k0 := fun e => h0 e.symm
        simp [mapSet, mapGet, List.find?_cons, hne, hkj]
      · have ih2 : (List.find? (fun p => p.1 == j) (mapSet tl kk v)).map (fun p => p.2) =
            if kk = j then some v else (List.find? (fun p => p.1 == j) tl).map (fun p => p.2) :=
          ih
        simp [mapSet, mapGet, List.find?_cons, hne, h, ih2]

/-- The merged total of canonical key k after folding the getTopTerpenes
loop over any prefix list, starting from any accumulator. -/
theorem terpTotals_get_aux (k : String) (l : List (Option TerpRec)) :
    ∀ acc : List (String × ℚ),
      (mapGet (l.foldl terpStep acc) k).getD 0 =
        (mapGet acc k).getD 0 + (l.filterMap (terpContrib k)).sum := by
  induction l with
  | nil => intro acc; simp
  | cons t rest ih =>
    intro acc
    rw [List.foldl_cons, List.filterMap_cons, ih (terpStep acc t)]
    cases t with
    | none => simp [terpStep, terpContrib]
    | some r =>
      cases hp : r.pct with
      | none =>
        simp only [terpStep, terpContrib, hp]
        by_cases hn : normalizeTerpName r.name = ("") <;> simp [hn]
      | some p =>
        simp only [terpStep, terpContrib, hp]
        by_cases hn : normalizeTerpName r.name = ("")
        · have hcond : ¬ (normalizeTerpName r.name = k ∧ ¬ normalizeTerpName r.name = ("")) :=
            fun hc => hc.2 hn
          rw [if_pos hn, if_neg hcond]
        · rw [if_neg hn]
          by_cases hple : p ≤ 0
          · rw [if_pos hple]
            have hnp : ¬ 0 < p := not_lt.mpr hple
            by_cases hk : normalizeTerpName r.name = k
            · rw [if_pos ⟨hk, hn⟩, if_neg hnp]
            · have hcond : ¬ (normalizeTerpName r.name = k ∧ ¬ normalizeTerpName r.name = ("")) :=
                fun hc => hk hc.1
              rw [if_neg hcond]
          · rw [if_neg hple]
            have hp0 : 0 < p := lt_of_not_le hple
            by_cases hk : normalizeTerpName r.name = k
            · rw [if_pos ⟨hk, hn⟩, if_pos hp0]
              rw [mapGet_mapSet, if_pos hk, hk]
              simp [add_assoc]
            · have hcond : ¬ (normalizeTerpName r.name = k ∧ ¬ normalizeTerpName r.name = ("")) :=
                fun hc => hk hc.1
              rw [if_neg hcond]
              rw [mapGet_mapSet, if_neg hk]

end Terpenes

namespace Scoring

/-- Projecting any dimension of calculatePersonalizedScores (on a non-empty
log) gives the per-dimension update step. -/
theorem getDim_personalized (base : Scores) (log : List SessionEntry) (pid : String)
    (prods : List ScoringProduct) (dim : Dim) (h : log ≠ []) :
    getDim (calculatePersonalizedScores base log pid prods) dim =
      personalizeDim base log prods dim := by
  unfold calculatePersonalizedScores
  rw [if_neg (by simpa using h)]
  cases dim <;> rfl

end Scoring

/-! ## Claims -/

namespace MmetBaselineFormulas

/-- C1 (amended): for a product whose form normalizes to the topical key
(intensityMod = 0), calculateBaseline returns 0 for head, clarity, sedation
and pain regardless of THC/terpene inputs; couch is also 0 except that the
standalone myrcene rule still fires after the topical zeroing, so couch is
0.12 when the myrcene fraction exceeds 0.5. -/
theorem claim_C1 (inp : BaselineInput) (h : normalizeFormType inp.form = ("topical")) :
    (calculateBaseline inp).head = 0 ∧ (calculateBaseline inp).clarity = 0 ∧
    (calculateBaseline inp).sedation = 0 ∧ (calculateBaseline inp).pain = 0 ∧
    (calculateBaseline inp).couch = (if 0.5 < myrcenePctOf inp then (0.12 : ℚ) else 0) := by
  have hf : formOf inp = formTopical := by
    unfold formOf formKeyOf
    rw [h]
    rfl
  have hi : intensityOf inp = 0 := by
    unfold intensityOf
    rw [hf]
    with_unfolding_all rfl
  have hs : scaledOf inp = zeroVec := by
    unfold scaledOf
    rw [hi]
    simp
  have hcouch : couchOf inp = (if 0.5 < myrcenePctOf inp then (0.12 : ℚ) else 0) := by
    unfold couchOf
    rw [hs]
    by_cases hm : 0.5 < myrcenePctOf inp
    · rw [if_pos hm, if_pos hm]
      show clamp01 ((0 : ℚ) + 0.12) = 0.12
      with_unfolding_all decide
    · rw [if_neg hm, if_neg hm]
      rfl
  refine ⟨?_, ?_, ?_, ?_, ?_⟩
  · rw [show (calculateBaseline inp).head = (scaledOf inp).head from rfl, hs]
    rfl
  · rw [show (calculateBaseline inp).clarity = (scaledOf inp).clarity from rfl, hs]
    rfl
  · rw [show (calculateBaseline inp).sedation = (scaledOf inp).sedation from rfl, hs]
    rfl
  · rw [show (calculateBaseline inp).pain = (scaledOf inp).pain from rfl, hs]
    rfl
  · rw [show (calculateBaseline inp).couch = couchOf inp from rfl, hcouch]

/-- C1 witness: the topical form at a concrete input. -/
theorem claim_C1_witness :
    normalizeFormType (some ("topical")) = ("topical") ∧
    (calculateBaseline ⟨some 25, some 8, some ("topical"), some []⟩).head = 0 ∧
    (calculateBaseline ⟨some 25, some 8, some ("topical"), some []⟩).couch =
      (if 0.5 < myrcenePctOf ⟨some 25, some 8, some ("topical"), some []⟩ then (0.12 : ℚ)
       else 0) := by
  have h : normalizeFormType (some ("topical")) = ("topical") := by decide
  exact ⟨h, (claim_C1 _ h).1, (claim_C1 _ h).2.2.2.2⟩

/-- C1 counterexample: a topical product with myrcene above 0.5 has couch
0.12, not 0 — the claim as stated (all felt-effect dimensions 0 even with
myrcene above 0.5) is false. -/
theorem claim_C1_counterexample :
    (calculateBaseline ⟨some 20, some 5, some ("topical"),
      some [some ⟨some ("Myrcene"), some (0.6 : ℚ)⟩]⟩).couch ≠ 0 := by
  with_unfolding_all decide

/-- C3 (confirmed): every felt-effect dimension and anxietyRisk of
calculateBaseline lies in [0,1], and so does every dimension after each
intermediate transformation (THC base vector, terpene modifiers, weighted
blends, intensity shaping), for all inputs. -/
theorem claim_C3 (inp : BaselineInput) (p t wA wB : ℚ) (m : List (String × ℚ))
    (a b v : EffectVec) (i : ℚ) (hv : InUnit v) :
    (0 ≤ (calculateBaseline inp).head ∧ (calculateBaseline inp).head ≤ 1) ∧
    (0 ≤ (calculateBaseline inp).clarity ∧ (calculateBaseline inp).clarity ≤ 1) ∧
    (0 ≤ (calculateBaseline inp).sedation ∧ (calculateBaseline inp).sedation ≤ 1) ∧
    (0 ≤ (calculateBaseline inp).couch ∧ (calculateBaseline inp).couch ≤ 1) ∧
    (0 ≤ (calculateBaseline inp).pain ∧ (calculateBaseline inp).pain ≤ 1) ∧
    (0 ≤ (calculateBaseline inp).anxietyRisk ∧ (calculateBaseline inp).anxietyRisk ≤ 1) ∧
    InUnit (thcBaseVector p) ∧ InUnit (applyTerpModifiers v m t) ∧
    InUnit (mixWeighted a b wA wB) ∧ InUnit (applyIntensityShaping v i) := by
  have hs := scaledOf_inUnit inp
  exact ⟨⟨hs.1, hs.2.1⟩, ⟨hs.2.2.1, hs.2.2.2.1⟩, ⟨hs.2.2.2.2.1, hs.2.2.2.2.2.1⟩,
    couchOf_mem inp, ⟨hs.2.2.2.2.2.2.2.2.1, hs.2.2.2.2.2.2.2.2.2⟩, anxietyRiskOf_mem inp,
    thcBaseVector_inUnit p, applyTerpModifiers_inUnit v m t hv,
    mixWeighted_inUnit a b wA wB, applyIntensityShaping_inUnit v i hv⟩

/-- C3 witness: the bounds at a concrete input and a concrete unit-box
vector. -/
theorem claim_C3_witness :
    InUnit zeroVec ∧
    (0 ≤ (calculateBaseline ⟨some 74.8, some 5.86, some ("concentrate"),
        some [some ⟨some ("Myrcene"), some (2.14 : ℚ)⟩]⟩).head ∧
      (calculateBaseline ⟨some 74.8, some 5.86, some ("concentrate"),
        some [some ⟨some ("Myrcene"), some (2.14 : ℚ)⟩]⟩).head ≤ 1) := by
  have hz : InUnit zeroVec := by decide
  exact ⟨hz, (claim_C3 _ 0 0 0 0 [] zeroVec zeroVec zeroVec 0 hz).1⟩

/-- C4 (amended): the THC/terpene blend in calculateBaseline is the
per-dimension clamped weighted average with weights (1 − TERP_WEIGHT) = 0.75
on the THC base vector and TERP_WEIGHT = 0.25 on the terpene-adjusted
vector; the exported THC_WEIGHT = 0.65 constant is not the weight used. -/
theorem claim_C4 (inp : BaselineInput) :
    (thcTerpBlendOf inp).head =
      clamp01 ((thcVecOf inp).head * 0.75 + (terpVecOf inp).head * 0.25) ∧
    (thcTerpBlendOf inp).clarity =
      clamp01 ((thcVecOf inp).clarity * 0.75 + (terpVecOf inp).clarity * 0.25) ∧
    (thcTerpBlendOf inp).sedation =
      clamp01 ((thcVecOf inp).sedation * 0.75 + (terpVecOf inp).sedation * 0.25) ∧
    (thcTerpBlendOf inp).couch =
      clamp01 ((thcVecOf inp).couch * 0.75 + (terpVecOf inp).couch * 0.25) ∧
    (thcTerpBlendOf inp).pain =
      clamp01 ((thcVecOf inp).pain * 0.75 + (terpVecOf inp).pain * 0.25) ∧
    (1 : ℚ) - TERP_WEIGHT = 0.75 ∧ THC_WEIGHT = 0.65 := by
  refine ⟨?_, ?_, ?_, ?_, ?_, ?_, ?_⟩ <;>
    norm_num [thcTerpBlendOf, mixWeighted, TERP_WEIGHT, THC_WEIGHT]

/-- C4 counterexample: at a concrete input the blend computed by the code
differs from the blend the spec words (weights THC_WEIGHT = 0.65 and
TERP_WEIGHT = 0.25) would give. -/
theorem claim_C4_counterexample :
    thcTerpBlendOf ⟨none, none, none, none⟩ ≠
      thcTerpBlendSpecWeights ⟨none, none, none, none⟩ := by
  with_unfolding_all decide

/-- C7 (confirmed): anxietyRisk is clamp01(band baseline + form add)
followed by the three corrective rules in this exact order, each re-clamped:
limonene above 0.3 subtracts 0.08, terpinolene above 0.3 adds 0.08, terpene
retention below 0.5 multiplies by 1.15. -/
theorem claim_C7 (inp : BaselineInput) :
    (calculateBaseline inp).anxietyRisk =
      (let a0 := clamp01 ((thcBandOf inp).anxietyRisk + (formOf inp).anxietyRiskAdd)
       let a1 := if 0.3 < limonenePctOf inp then clamp01 (a0 - 0.08) else a0
       let a2 := if 0.3 < terpinolenePctOf inp then clamp01 (a1 + 0.08) else a1
       if (formOf inp).terpeneRetention < 0.5 then clamp01 (a2 * 1.15) else a2) := rfl

/-- C8 (confirmed): for any unit-box vector the intensity shaping is
additive in i = max(0, intensityMod − 1) with the stated per-dimension
coefficients (clamped), and for every non-topical form the calculateBaseline
output equals that additive shaping of the blended vector (for couch,
whenever the myrcene override does not fire). -/
theorem claim_C8 (v : EffectVec) (intensity : ℚ) (inp : BaselineInput) (hv : InUnit v)
    (hnt : normalizeFormType inp.form ≠ ("topical")) :
    applyIntensityShaping v intensity =
      ⟨clamp01 (v.head + 0.05 * max 0 (intensity - 1)),
       clamp01 (v.clarity - 0.10 * max 0 (intensity - 1)),
       clamp01 (v.sedation + 0.18 * max 0 (intensity - 1)),
       clamp01 (v.couch + 0.14 * max 0 (intensity - 1)),
       clamp01 (v.pain + 0.10 * max 0 (intensity - 1))⟩ ∧
    (calculateBaseline inp).head =
      clamp01 ((baselineVecOf inp).head + 0.05 * max 0 (intensityOf inp - 1)) ∧
    (calculateBaseline inp).clarity =
      clamp01 ((baselineVecOf inp).clarity - 0.10 * max 0 (intensityOf inp - 1)) ∧
    (calculateBaseline inp).sedation =
      clamp01 ((baselineVecOf inp).sedation + 0.18 * max 0 (intensityOf inp - 1)) ∧
    (calculateBaseline inp).pain =
      clamp01 ((baselineVecOf inp).pain + 0.10 * max 0 (intensityOf inp - 1)) ∧
    (myrcenePctOf inp ≤ 0.5 →
      (calculateBaseline inp).couch =
        clamp01 ((baselineVecOf inp).couch + 0.14 * max 0 (intensityOf inp - 1))) := by
  have hne := intensity_ne_zero inp hnt
  have hscaled : scaledOf inp = applyIntensityShaping (baselineVecOf inp) (intensityOf inp) := by
    unfold scaledOf
    rw [if_neg hne]
  have hBU : InUnit (baselineVecOf inp) := mixWeighted_inUnit _ _ _ _
  have hB := shaping_eq (baselineVecOf inp) (intensityOf inp) hBU
  refine ⟨shaping_eq v intensity hv, ?_, ?_, ?_, ?_, ?_⟩
  · rw [show (calculateBaseline inp).head = (scaledOf inp).head from rfl, hscaled, hB]
  · rw [show (calculateBaseline inp).clarity = (scaledOf inp).clarity from rfl, hscaled, hB]
  · rw [show (calculateBaseline inp).sedation = (scaledOf inp).sedation from rfl, hscaled, hB]
  · rw [show (calculateBaseline inp).pain = (scaledOf inp).pain from rfl, hscaled, hB]
  · intro hm
    have hnm : ¬ 0.5 < myrcenePctOf inp := not_lt.mpr hm
    rw [show (calculateBaseline inp).couch = couchOf inp from rfl]
    unfold couchOf
    rw [if_neg hnm, hscaled, hB]

/-- C8 witness: the additive shaping at a concrete vector, intensity and
non-topical input. -/
theorem claim_C8_witness :
    InUnit zeroVec ∧ normalizeFormType (some ("flower")) ≠ ("topical") ∧
    myrcenePctOf ⟨some 20, some 2, some ("flower"), some []⟩ ≤ 0.5 ∧
    (calculateBaseline ⟨some 20, some 2, some ("flower"), some []⟩).couch =
      clamp01 ((baselineVecOf ⟨some 20, some 2, some ("flower"), some []⟩).couch +
        0.14 * max 0 (intensityOf ⟨some 20, some 2, some ("flower"), some []⟩ - 1)) := by
  have hz : InUnit zeroVec := by decide
  have hnt : normalizeFormType (some ("flower")) ≠ ("topical") := by decide
  have hm : myrcenePctOf ⟨some 20, some 2, some ("flower"), some []⟩ ≤ 0.5 := by
    with_unfolding_all decide
  exact ⟨hz, hnt, hm, (claim_C8 zeroVec 2 _ hz hnt).2.2.2.2.2 hm⟩

end MmetBaselineFormulas

namespace Terpenes

/-- C5 (confirmed): canonicalization is idempotent on every raw name that
maps into the canonical vocabulary; merging sums the percentages of all
entries whose names normalize to the same canonical key, independently of
input order; and the documented example β-Caryophyllene 1.0 plus
beta caryophyllene 0.5 merges to caryophyllene 1.5. -/
theorem claim_C5 (x : String) (l l2 : List (Option TerpRec)) (k : String)
    (hx : normalizeTerpName (some x) ∈ known) (hperm : l.Perm l2) :
    normalizeTerpName (some (normalizeTerpName (some x))) = normalizeTerpName (some x) ∧
    (mapGet (terpTotals l) k).getD 0 = (l.filterMap (terpContrib k)).sum ∧
    (mapGet (terpTotals l) k).getD 0 = (mapGet (terpTotals l2) k).getD 0 ∧
    getTop6Terpenes
      [some ⟨some ("β-Caryophyllene"), some 1⟩,
       some ⟨some ("beta caryophyllene"), some 0.5⟩] =
      [(("caryophyllene"), 1.5)] := by
  refine ⟨?_, ?_, ?_, ?_⟩
  · simp only [known, List.mem_cons, List.not_mem_nil, or_false] at hx
    rcases hx with h | h | h | h | h | h | h | h | h | h <;> rw [h] <;> decide
  · have h1 := terpTotals_get_aux k l []
    simpa [terpTotals, mapGet] using h1
  · have h1 := terpTotals_get_aux k l []
    have h2 := terpTotals_get_aux k l2 []
    have hsum : (l.filterMap (terpContrib k)).sum = (l2.filterMap (terpContrib k)).sum :=
      (hperm.filterMap _).sum_eq
    unfold terpTotals
    rw [h1, h2, hsum]
  · with_unfolding_all decide

/-- C5 witness: the canonical-name membership, a concrete permutation, and
the resulting order-independent totals. -/
theorem claim_C5_witness :
    normalizeTerpName (some ("β-Caryophyllene")) ∈ known ∧
    normalizeTerpName (some (normalizeTerpName (some ("β-Caryophyllene")))) =
      normalizeTerpName (some ("β-Caryophyllene")) ∧
    (mapGet (terpTotals [some ⟨some ("Linalool"), some 1⟩, some ⟨some ("Myrcene"), some 2⟩])
        ("myrcene")).getD 0 =
      (mapGet (terpTotals [some ⟨some ("Myrcene"), some 2⟩, some ⟨some ("Linalool"), some 1⟩])
        ("myrcene")).getD 0 := by
  have hx : normalizeTerpName (some ("β-Caryophyllene")) ∈ known := by decide
  have hp : ([some (⟨some ("Linalool"), some 1⟩ : TerpRec), some ⟨some ("Myrcene"), some 2⟩].Perm
      [some ⟨some ("Myrcene"), some 2⟩, some ⟨some ("Linalool"), some 1⟩]) :=
    List.Perm.swap _ _ _
  exact ⟨hx, (claim_C5 _ _ _ ("myrcene") hx hp).1,
    (claim_C5 ("β-Caryophyllene") _ _ ("myrcene") hx hp).2.2.1⟩

end Terpenes

namespace Scoring

open MmetBaselineFormulas

/-- C10 (confirmed): the UI anxiety score is the 0..5 curve of the rescaled
value clamp01((anxietyRisk − 0.22)/0.78), not of raw anxietyRisk, so every
product whose baseline anxietyRisk is at most 0.22 gets an anxiety score of
exactly 0. -/
theorem claim_C10 (p : ScoringProduct) :
    (calculateBaselineScores p).anxiety =
      clamp05R (toScore5Scaled (anxiety01Of p) 0.00 1.00 1.20) ∧
    anxiety01Of p = clamp01 ((clamp01 (advOf p).anxietyRisk - 0.22) / 0.78) ∧
    ((advOf p).anxietyRisk ≤ 0.22 → (calculateBaselineScores p).anxiety = 0) := by
  refine ⟨rfl, rfl, ?_⟩
  intro h
  have h0 : (0 : ℚ) ≤ (advOf p).anxietyRisk := (anxietyRiskOf_mem (inputOf p)).1
  have hraw : anxietyRawOf p = (advOf p).anxietyRisk :=
    clamp01_of_mem h0 (le_trans h (by norm_num))
  have h01 : anxiety01Of p = 0 := by
    unfold anxiety01Of
    rw [hraw]
    apply clamp01_of_nonpos
    apply div_nonpos_of_nonpos_of_nonneg (sub_nonpos.mpr h) (by norm_num)
  rw [show (calculateBaselineScores p).anxiety =
    clamp05R (toScore5Scaled (anxiety01Of p) 0.00 1.00 1.20) from rfl, h01]
  have ht : clamp01 ((clamp01 (0 : ℚ) - 0.00) / max (1/1000000000) ((1.00 : ℚ) - 0.00)) = 0 := by
    with_unfolding_all decide
  simp only [toScore5Scaled]
  rw [ht]
  rw [show (((0 : ℚ) : ℝ)) = (0 : ℝ) from by norm_num]
  rw [Real.zero_rpow (by norm_num : (((1.20 : ℚ) : ℝ)) ≠ 0)]
  norm_num [toHalfR, jsRoundR, clamp05R]

/-- C10 witness: a topical product has baseline anxietyRisk 0.15 ≤ 0.22 and
therefore anxiety score exactly 0. -/
theorem claim_C10_witness :
    (advOf ⟨("w"), some 5, some 0, some ("topical"), some []⟩).anxietyRisk ≤ 0.22 ∧
    (calculateBaselineScores ⟨("w"), some 5, some 0, some ("topical"), some []⟩).anxiety = 0 := by
  have h : (advOf ⟨("w"), some 5, some 0, some ("topical"), some []⟩).anxietyRisk ≤ 0.22 := by
    with_unfolding_all decide
  exact ⟨h, (claim_C10 _).2.2 h⟩

/-- C6 (confirmed): per dimension, the calibrator averages the
(actual − predicted) deltas over the qualifying session entries and caps
confidence at min(n/10, 0.8); the personalized score is the baseline plus
confidence-weighted adjustment, rounded to halves and clamped to [0,5]; a
dimension with no qualifying samples keeps its baseline score with
confidence 0; and the confidence formula is monotone, 0.5 at 5 samples and
0.8 from 10 samples on. -/
theorem claim_C6 (log : List SessionEntry) (prods : List ScoringProduct) (dim : Dim)
    (base : Scores) (pid : String) (m n : Nat) :
    (qualifyingDeltas log prods dim ≠ [] →
      calculateUserCalibration log prods dim =
        ⟨(qualifyingDeltas log prods dim).sum / ((qualifyingDeltas log prods dim).length : ℝ),
         ((confFun (qualifyingDeltas log prods dim).length : ℚ) : ℝ),
         (qualifyingDeltas log prods dim).length⟩) ∧
    (qualifyingDeltas log prods dim = [] →
      calculateUserCalibration log prods dim = ⟨0, 0, 0⟩ ∧
      getDim (calculatePersonalizedScores base log pid prods) dim = getDim base dim) ∧
    (0 < (calculateUserCalibration log prods dim).confidence →
      getDim (calculatePersonalizedScores base log pid prods) dim =
        clamp05R (toHalfR (getDim base dim +
          (calculateUserCalibration log prods dim).adjustment *
            (calculateUserCalibration log prods dim).confidence))) ∧
    (m ≤ n → confFun m ≤ confFun n) ∧
    confFun 5 = 0.5 ∧
    (10 ≤ n → confFun n = 0.8) := by
  refine ⟨?_, ?_, ?_, ?_, ?_, ?_⟩
  · intro h
    unfold calculateUserCalibration
    rw [if_neg (by simpa using h)]
  · intro h
    have hcal : calculateUserCalibration log prods dim = ⟨0, 0, 0⟩ := by
      unfold calculateUserCalibration
      rw [if_pos (by simp [h])]
    refine ⟨hcal, ?_⟩
    by_cases hl : log = []
    · subst hl
      simp [calculatePersonalizedScores]
    · rw [getDim_personalized _ _ _ _ _ hl]
      unfold personalizeDim
      rw [hcal]
      rw [if_neg (lt_irrefl (0 : ℝ))]
  · intro hconf
    have hlog : log ≠ [] := by
      intro he
      subst he
      have hcal : calculateUserCalibration [] prods dim = ⟨0, 0, 0⟩ := by
        unfold calculateUserCalibration
        rw [if_pos (by simp [qualifyingDeltas])]
      rw [hcal] at hconf
      exact lt_irrefl 0 hconf
    rw [getDim_personalized _ _ _ _ _ hlog]
    unfold personalizeDim
    rw [if_pos hconf]
  · intro h
    unfold confFun
    refine min_le_min ?_ le_rfl
    have hc : (m : ℚ) ≤ (n : ℚ) := by exact_mod_cast h
    linarith
  · with_unfolding_all decide
  · intro h
    unfold confFun
    rw [min_eq_right]
    have hc : (10 : ℚ) ≤ (n : ℚ) := by exact_mod_cast h
    rw [show (0.8 : ℚ) = 8/10 from by norm_num]
    linarith

/-- C6 witness: one pain rating for a found product yields one qualifying
delta; an unrated dimension keeps its baseline; and concrete confidence
values. -/
theorem claim_C6_witness :
    qualifyingDeltas wlogC6 [wprodC6] Dim.pain ≠ [] ∧
    calculateUserCalibration wlogC6 [wprodC6] Dim.pain =
      ⟨(qualifyingDeltas wlogC6 [wprodC6] Dim.pain).sum /
          ((qualifyingDeltas wlogC6 [wprodC6] Dim.pain).length : ℝ),
       ((confFun (qualifyingDeltas wlogC6 [wprodC6] Dim.pain).length : ℚ) : ℝ),
       (qualifyingDeltas wlogC6 [wprodC6] Dim.pain).length⟩ ∧
    getDim (calculatePersonalizedScores wbaseC6 wlogC6 ("p1") [wprodC6]) Dim.head =
      getDim wbaseC6 Dim.head ∧
    confFun 5 = 0.5 ∧ confFun 12 = 0.8 ∧ confFun 3 ≤ confFun 7 := by
  have hne : qualifyingDeltas wlogC6 [wprodC6] Dim.pain ≠ [] := by
    rw [show qualifyingDeltas wlogC6 [wprodC6] Dim.pain =
      [(3 : ℝ) - getDim (calculateBaselineScores wprodC6) Dim.pain] from rfl]
    simp
  have hemp : qualifyingDeltas wlogC6 [wprodC6] Dim.head = [] := rfl
  exact ⟨hne, (claim_C6 wlogC6 [wprodC6] Dim.pain wbaseC6 ("p1") 3 12).1 hne,
    ((claim_C6 wlogC6 [wprodC6] Dim.head wbaseC6 ("p1") 3 12).2.1 hemp).2,
    (claim_C6 wlogC6 [wprodC6] Dim.pain wbaseC6 ("p1") 3 12).2.2.2.2.1,
    (claim_C6 wlogC6 [wprodC6] Dim.pain wbaseC6 ("p1") 3 12).2.2.2.2.2 (by norm_num),
    (claim_C6 wlogC6 [wprodC6] Dim.pain wbaseC6 ("p1") 3 7).2.2.2.1 (by norm_num)⟩

end Scoring

namespace MmetStore

/-- C9 (confirmed): importing the payload exported from any profile state
restores exactly the fields the core owns — profileName, products and
sessionLog (the sessionLog array in particular is reproduced exactly) —
whatever the previous state was, and reports ok with the restored counts.
The composition is settled at the parsed-JSON value level: the import entry
point takes the parsed value directly on its non-string path, and the
runtime pair JSON.parse ∘ JSON.stringify is the identity on these
payloads. -/
theorem claim_C9 (s s2 : ProfileState) (now : String) :
    (importProfileValue (exportPayload s now) s2).1.profileName = s.profileName ∧
    (importProfileValue (exportPayload s now) s2).1.products = s.products ∧
    (importProfileValue (exportPayload s now) s2).1.sessionLog = s.sessionLog ∧
    (importProfileValue (exportPayload s now) s2).2 =
      ⟨true, s.products.length, s.sessionLog.length⟩ :=
  ⟨rfl, rfl, rfl, rfl⟩

/-- C2 (amended): the top-level COA text parse returns null — with no
product added to the store and lastError untouched — exactly when the
trimmed text is empty or no usable (nonzero) Total THC percentage is
extracted; terpene extraction plays no part in the abandonment decision. -/
theorem claim_C2 (text : String) (src : Option String) (genId now : String)
    (st : StoreState) :
    (parseCoaTextToProduct text src genId now = none ↔
      (jsTrim text = ("") ∨ jsFalsyQ (extractTotalTHC (jsTrim text)) = true)) ∧
    ((parseCoaText text src genId now st).1 =
      (parseCoaTextToProduct text src genId now).map (fun p => [p])) ∧
    ((parseCoaText text src genId now st).2.products =
      (match parseCoaTextToProduct text src genId now with
        | none => st.products
        | some p => p :: st.products)) ∧
    ((parseCoaText text src genId now st).2.lastError =
      (match parseCoaTextToProduct text src genId now with
        | none => st.lastError
        | some _ => none)) := by
  refine ⟨?_, ?_, ?_, ?_⟩
  · simp only [parseCoaTextToProduct]
    by_cases h1 : jsTrim text = ("")
    · simp [h1]
    · rw [if_neg h1]
      by_cases h2 : jsFalsyQ (extractTotalTHC (jsTrim text)) = true
      · simp [h1, h2]
      · simp [h1, h2]
  · cases hp : parseCoaTextToProduct text src genId now <;> simp [parseCoaText, hp]
  · cases hp : parseCoaTextToProduct text src genId now <;> simp [parseCoaText, hp]
  · cases hp : parseCoaTextToProduct text src genId now <;> simp [parseCoaText, hp]

/-- C2 counterexample: a text from which a terpene pair is extracted but no
THC value is recoverable IS treated as unrecoverable — the parse is
abandoned (null), refuting the claim that such texts are not abandoned. -/
theorem claim_C2_counterexample :
    extractTerpenePairs (jsTrim ("TERPENES\nMyrcene 1.50%")) ≠ [] ∧
    extractTotalTHC (jsTrim ("TERPENES\nMyrcene 1.50%")) = none ∧
    parseCoaTextToProduct ("TERPENES\nMyrcene 1.50%") none ("id0") ("t0") = none := by
  refine ⟨?_, ?_, ?_⟩
  · rw [show extractTerpenePairs (jsTrim ("TERPENES\nMyrcene 1.50%")) =
      [(("Myrcene"), (1.5 : ℚ))] from by with_unfolding_all rfl]
    simp
  · with_unfolding_all rfl
  · with_unfolding_all rfl

end MmetStore
